import Mathlib

/-!
# goboVkTriangle: capability negotiation

A shallow embedding of the selection functions of `src/gobovktriangle.cpp`
(present mode, surface format, extent, queue families, device scoring) and
theorems about them.

Conventions of the embedding:

* Vulkan enumerators and `uint32_t` values are natural numbers; the enumerator
  values are the ones of `vulkan_core.h`.  The functions only compare them for
  equality (or with `std::min`/`std::max`), so no wrap-around can occur there.
* A C++ function `bool f(in, T& out)` becomes a function returning the pair
  `(returned flag, value of out afterwards)`; the previous value of `out` is an
  argument, because a failing call leaves `out` untouched.
* Logging calls (`linfo`, `lerror`, `ldebug`) have no effect on the results and
  are dropped.
-/

set_option autoImplicit false

namespace GoboVkTriangle

/-! ## Constants of the Vulkan headers -/

/-- Enumerator `VK_PRESENT_MODE_IMMEDIATE_KHR` of `VkPresentModeKHR`. -/
def VK_PRESENT_MODE_IMMEDIATE_KHR : Nat := 0

/-- Enumerator `VK_PRESENT_MODE_MAILBOX_KHR` of `VkPresentModeKHR`. -/
def VK_PRESENT_MODE_MAILBOX_KHR : Nat := 1

/-- Enumerator `VK_PRESENT_MODE_FIFO_KHR` of `VkPresentModeKHR`. -/
def VK_PRESENT_MODE_FIFO_KHR : Nat := 2

/-! ## chooseSwapPresentMode (lines 42-74) -/

/-- The `for` loop of `chooseSwapPresentMode`, over the remaining modes, with
the current values of the locals `fifoFound` and `immediateFound`.
`Except.error m` is the early `return true` taken at a mailbox entry `m`
(the value assigned to `chosenPresentMode`); `Except.ok` carries the two flags
at the end of the loop. -/
def chooseSwapPresentModeLoop : List Nat → Bool → Bool → Except Nat (Bool × Bool)
  | [], fifoFound, immediateFound => Except.ok (fifoFound, immediateFound)
  | availablePresentMode :: rest, fifoFound, immediateFound =>
    if availablePresentMode = VK_PRESENT_MODE_MAILBOX_KHR then
      Except.error availablePresentMode
    else
      let fifoFound1 :=
        if availablePresentMode = VK_PRESENT_MODE_FIFO_KHR then true else fifoFound
      let immediateFound1 :=
        if availablePresentMode = VK_PRESENT_MODE_IMMEDIATE_KHR then true else immediateFound
      chooseSwapPresentModeLoop rest fifoFound1 immediateFound1

/-- Embedding of `chooseSwapPresentMode`: the returned flag and the value of
`chosenPresentMode` after the call. -/
def chooseSwapPresentMode (availablePresentModes : List Nat) (chosenPresentMode : Nat) :
    Bool × Nat :=
  match chooseSwapPresentModeLoop availablePresentModes false false with
  | Except.error m => (true, m)
  | Except.ok (fifoFound, immediateFound) =>
    if immediateFound then (true, VK_PRESENT_MODE_IMMEDIATE_KHR)
    else if fifoFound then (true, VK_PRESENT_MODE_FIFO_KHR)
    else (false, chosenPresentMode)

/-! ## chooseSwapExtent (lines 76-97) -/

/-- Value of `std::numeric_limits<uint32_t>::max()`, the sentinel width of a
surface that accepts any size. -/
def UINT32_MAX : Nat := 4294967295

/-- Vulkan structure `VkExtent2D`. -/
structure VkExtent2D where
  width : Nat
  height : Nat
  deriving DecidableEq, Repr

/-- The fields of the Vulkan structure `VkSurfaceCapabilitiesKHR` that
`chooseSwapExtent` reads. -/
structure VkSurfaceCapabilitiesKHR where
  currentExtent : VkExtent2D
  minImageExtent : VkExtent2D
  maxImageExtent : VkExtent2D
  deriving DecidableEq, Repr

/-- Embedding of `chooseSwapExtent`: the returned flag and the value of
`chosenSwapExtent` after the call. -/
def chooseSwapExtent (capabilities : VkSurfaceCapabilitiesKHR) (windowWidth windowHeight : Nat)
    (_chosenSwapExtent : VkExtent2D) : Bool × VkExtent2D :=
  if capabilities.currentExtent.width ≠ UINT32_MAX then
    (true, capabilities.currentExtent)
  else
    let actualExtent : VkExtent2D := { width := windowWidth, height := windowHeight }
    let actualExtent1 : VkExtent2D :=
      { actualExtent with
        width := max capabilities.minImageExtent.width
                   (min capabilities.maxImageExtent.width windowWidth) }
    let actualExtent2 : VkExtent2D :=
      { actualExtent1 with
        height := max capabilities.minImageExtent.height
                    (min capabilities.maxImageExtent.height windowHeight) }
    (true, actualExtent2)

/-- The usual clamp of `x` into the interval from `lo` to `hi`, as the
specification words it: values below the range go to `lo`, values above it go
to `hi`, the others stay. -/
def clampInto (lo hi x : Nat) : Nat :=
  if x < lo then lo else if hi < x then hi else x

/-- An extent lies within the minimum and maximum extents of the capabilities,
on both axes. -/
def extentWithinBounds (capabilities : VkSurfaceCapabilitiesKHR) (e : VkExtent2D) : Prop :=
  capabilities.minImageExtent.width ≤ e.width ∧ e.width ≤ capabilities.maxImageExtent.width ∧
  capabilities.minImageExtent.height ≤ e.height ∧ e.height ≤ capabilities.maxImageExtent.height

instance (capabilities : VkSurfaceCapabilitiesKHR) (e : VkExtent2D) :
    Decidable (extentWithinBounds capabilities e) := by
  unfold extentWithinBounds; infer_instance

/-! ## chooseSwapChainSurfaceFormat (lines 99-125) -/

/-- Enumerator `VK_FORMAT_UNDEFINED` of `VkFormat`. -/
def VK_FORMAT_UNDEFINED : Nat := 0

/-- Enumerator `VK_FORMAT_B8G8R8A8_UNORM` of `VkFormat`. -/
def VK_FORMAT_B8G8R8A8_UNORM : Nat := 44

/-- Enumerator `VK_COLOR_SPACE_SRGB_NONLINEAR_KHR` of `VkColorSpaceKHR`. -/
def VK_COLOR_SPACE_SRGB_NONLINEAR_KHR : Nat := 0

/-- Vulkan structure `VkSurfaceFormatKHR`. -/
structure VkSurfaceFormatKHR where
  format : Nat
  colorSpace : Nat
  deriving DecidableEq, Repr

/-- The `for` loop of `chooseSwapChainSurfaceFormat`: the entry at which it
returns, if any. -/
def chooseSwapChainSurfaceFormatLoop : List VkSurfaceFormatKHR → Option VkSurfaceFormatKHR
  | [] => none
  | availableFormat :: rest =>
    if availableFormat.format = VK_FORMAT_B8G8R8A8_UNORM ∧
        availableFormat.colorSpace = VK_COLOR_SPACE_SRGB_NONLINEAR_KHR then
      some availableFormat
    else
      chooseSwapChainSurfaceFormatLoop rest

/-- Embedding of `chooseSwapChainSurfaceFormat`: the returned flag and the value
of `chosenFormat` after the call. -/
def chooseSwapChainSurfaceFormat (availableFormats : List VkSurfaceFormatKHR)
    (chosenFormat : VkSurfaceFormatKHR) : Bool × VkSurfaceFormatKHR :=
  if availableFormats.length = 1 ∧
      (availableFormats[0]?).map VkSurfaceFormatKHR.format = some VK_FORMAT_UNDEFINED then
    (true, { format := VK_FORMAT_B8G8R8A8_UNORM, colorSpace := VK_COLOR_SPACE_SRGB_NONLINEAR_KHR })
  else
    match chooseSwapChainSurfaceFormatLoop availableFormats with
    | some availableFormat => (true, availableFormat)
    | none =>
      if availableFormats.length ≥ 1 then
        match availableFormats[0]? with
        | some first => (true, first)
        | none => (false, chosenFormat)
      else
        (false, chosenFormat)

/-- The list is a single entry whose format is `VK_FORMAT_UNDEFINED`, with any
color space. -/
def isSingleUndefined (availableFormats : List VkSurfaceFormatKHR) : Prop :=
  ∃ colorSpace, availableFormats = [{ format := VK_FORMAT_UNDEFINED, colorSpace := colorSpace }]

/-- The fixed default of `chooseSwapChainSurfaceFormat`. -/
def defaultSurfaceFormat : VkSurfaceFormatKHR :=
  { format := VK_FORMAT_B8G8R8A8_UNORM, colorSpace := VK_COLOR_SPACE_SRGB_NONLINEAR_KHR }

/-! ## Queue families (lines 169-178 and 216-250) -/

/-- Bit `VK_QUEUE_GRAPHICS_BIT` of `VkQueueFlagBits`. -/
def VK_QUEUE_GRAPHICS_BIT : Nat := 1

/-- One queue family of a device as `findQueueFamilies` sees it: the fields
`queueFlags` and `queueCount` of its `VkQueueFamilyProperties`, and
`presentSupport`, the `VkBool32` that `vkGetPhysicalDeviceSurfaceSupportKHR`
stores for this family index and the application surface (0 when the call
leaves the initial `false`). -/
structure QueueFamily where
  queueFlags : Nat
  queueCount : Nat
  presentSupport : Nat
  deriving DecidableEq, Repr

/-- The structure `QueueFamilyIndices`; both members start at -1. -/
structure QueueFamilyIndices where
  graphicsFamily : Int := -1
  presentFamily : Int := -1
  deriving DecidableEq, Repr

/-- Method `QueueFamilyIndices::isComplete`. -/
def QueueFamilyIndices.isComplete (indices : QueueFamilyIndices) : Bool :=
  decide (indices.graphicsFamily ≥ 0) && decide (indices.presentFamily ≥ 0)

/-- The `for` loop of `findQueueFamilies` over the remaining families, with the
current values of the counter `i` and of `indices`.  The counter is an `int`
in the source; it never exceeds the number of families, so it is taken here
without wrap-around. -/
def findQueueFamiliesLoop : List QueueFamily → Int → QueueFamilyIndices → QueueFamilyIndices
  | [], _, indices => indices
  | queueFamily :: rest, i, indices =>
    let indices1 : QueueFamilyIndices :=
      if queueFamily.queueCount > 0 ∧ queueFamily.queueFlags &&& VK_QUEUE_GRAPHICS_BIT ≠ 0 then
        { indices with graphicsFamily := i }
      else indices
    let indices2 : QueueFamilyIndices :=
      if queueFamily.queueCount > 0 ∧ queueFamily.presentSupport ≠ 0 then
        { indices1 with presentFamily := i }
      else indices1
    if indices2.isComplete then indices2
    else findQueueFamiliesLoop rest (i + 1) indices2

/-! ## Device candidates and scoring (lines 252-325) -/

/-- Enumerator `VK_PHYSICAL_DEVICE_TYPE_DISCRETE_GPU` of `VkPhysicalDeviceType`. -/
def VK_PHYSICAL_DEVICE_TYPE_DISCRETE_GPU : Nat := 2

/-- Constant `VK_KHR_SWAPCHAIN_EXTENSION_NAME`. -/
def VK_KHR_SWAPCHAIN_EXTENSION_NAME : String := "VK_KHR_swapchain"

/-- Constant `VK_NULL_HANDLE`. -/
def VK_NULL_HANDLE : Nat := 0

/-- A device candidate: the handle `VkPhysicalDevice` together with what the
driver reports for it and the application surface: `deviceType` and
`limits.maxImageDimension2D` of its properties (a `uint32_t`), the feature
`geometryShader` (a `VkBool32`), its queue families, the names of its device
extensions, and the surface formats and present modes that
`querySwapChainSupport` collects. -/
structure PhysicalDevice where
  handle : Nat
  deviceType : Nat
  maxImageDimension2D : Nat
  geometryShader : Nat
  queueFamilies : List QueueFamily
  extensions : List String
  capabilities : VkSurfaceCapabilitiesKHR
  formats : List VkSurfaceFormatKHR
  presentModes : List Nat
  deriving DecidableEq, Repr

/-- Embedding of `findQueueFamilies` for a device and the application surface. -/
def findQueueFamilies (device : PhysicalDevice) : QueueFamilyIndices :=
  findQueueFamiliesLoop device.queueFamilies 0 {}

/-- The members of `HelloVkTriangleApplication` that device selection reads or
writes. -/
structure HelloVkTriangleApplication where
  m_requiredDeviceExtensions : List String
  m_queueFamilyIndices : QueueFamilyIndices
  m_physicalDevice : Nat
  deriving DecidableEq, Repr

/-- The constructor of `HelloVkTriangleApplication`: the swapchain extension is
the one required device extension and no physical device is selected. -/
def HelloVkTriangleApplication.create : HelloVkTriangleApplication :=
  { m_requiredDeviceExtensions := [VK_KHR_SWAPCHAIN_EXTENSION_NAME],
    m_queueFamilyIndices := {},
    m_physicalDevice := VK_NULL_HANDLE }

/-- Conversion of an `unsigned int` value to `int` (two's complement, 32 bits). -/
def toInt32 (n : Nat) : Int :=
  if n % 2 ^ 32 < 2 ^ 31 then ((n % 2 ^ 32 : Nat) : Int) else ((n % 2 ^ 32 : Nat) : Int) - 2 ^ 32

/-- The loop of `rateDeviceSuitability` over `m_requiredDeviceExtensions`:
`true` when every required name is found by `find_if` among the available
extension names, `false` when the loop returns 0 at a name that is not found. -/
def requiredExtensionsLoop : List String → List String → Bool
  | [], _ => true
  | deviceExtension :: rest, availableExtensions =>
    match availableExtensions.find? (fun ext => ext == deviceExtension) with
    | none => false
    | some _ => requiredExtensionsLoop rest availableExtensions

/-- Embedding of `HelloVkTriangleApplication::rateDeviceSuitability`: the
returned score and the application state after the call (the method stores the
queue families it found in `m_queueFamilyIndices`).  The statement
`score += maxImageDimension2D` adds an `int` and a `uint32_t`: the sum is taken
modulo 2^32 and converted back to `int`. -/
def rateDeviceSuitability (app : HelloVkTriangleApplication) (device : PhysicalDevice) :
    Int × HelloVkTriangleApplication :=
  let score0 : Int := 0
  let score1 : Int :=
    if device.deviceType = VK_PHYSICAL_DEVICE_TYPE_DISCRETE_GPU then score0 + 100 else score0
  let score2 : Int := toInt32 ((score1.toNat + device.maxImageDimension2D) % 2 ^ 32)
  if device.geometryShader = 0 then (0, app)
  else
    let app1 : HelloVkTriangleApplication :=
      { app with m_queueFamilyIndices := findQueueFamilies device }
    if !app1.m_queueFamilyIndices.isComplete then (0, app1)
    else if !requiredExtensionsLoop app1.m_requiredDeviceExtensions device.extensions then (0, app1)
    else if device.formats.isEmpty || device.presentModes.isEmpty then (0, app1)
    else (score2, app1)

/-- The fixed bonus of a discrete GPU in `rateDeviceSuitability`. -/
def discreteBonus (device : PhysicalDevice) : Int :=
  if device.deviceType = VK_PHYSICAL_DEVICE_TYPE_DISCRETE_GPU then 100 else 0

/-- Some required device extension is missing from the extension list of the
device. -/
def missesRequiredExtension (app : HelloVkTriangleApplication) (device : PhysicalDevice) : Prop :=
  ∃ e ∈ app.m_requiredDeviceExtensions, e ∉ device.extensions

/-- The device passes every rejection check of `rateDeviceSuitability`. -/
def passesRejectionChecks (app : HelloVkTriangleApplication) (device : PhysicalDevice) : Prop :=
  device.geometryShader ≠ 0 ∧ (findQueueFamilies device).isComplete = true ∧
  (∀ e ∈ app.m_requiredDeviceExtensions, e ∈ device.extensions) ∧
  device.formats ≠ [] ∧ device.presentModes ≠ []

/-- Condition of the first `if` in the loop of `findQueueFamilies`: the family
has a queue and the graphics bit. -/
def QueueFamily.offersGraphics (queueFamily : QueueFamily) : Bool :=
  decide (queueFamily.queueCount > 0 ∧ queueFamily.queueFlags &&& VK_QUEUE_GRAPHICS_BIT ≠ 0)

/-- Condition of the second `if` in the loop of `findQueueFamilies`: the family
has a queue and can present to the surface. -/
def QueueFamily.offersPresent (queueFamily : QueueFamily) : Bool :=
  decide (queueFamily.queueCount > 0 ∧ queueFamily.presentSupport ≠ 0)

/-- The first (smallest) index of the list at which `p` holds, -1 when it holds
nowhere: the index that the specification says is recorded. -/
def firstIndexWhere (p : QueueFamily → Bool) : List QueueFamily → Int
  | [] => -1
  | queueFamily :: rest =>
    if p queueFamily then 0
    else if firstIndexWhere p rest ≥ 0 then firstIndexWhere p rest + 1 else -1

/-- The last (largest) index of the list at which `p` holds, -1 when it holds
nowhere. -/
def lastIndexWhere (p : QueueFamily → Bool) : List QueueFamily → Int
  | [] => -1
  | queueFamily :: rest =>
    if lastIndexWhere p rest ≥ 0 then lastIndexWhere p rest + 1
    else if p queueFamily then 0 else -1

/-- The families that the loop of `findQueueFamilies` visits: the shortest
prefix of the list in which both a graphics family and a present family occur,
the whole list when no prefix has both.  The flags say whether a graphics
family and a present family have been seen before the list starts. -/
def scannedFamilies : List QueueFamily → Bool → Bool → List QueueFamily
  | [], _, _ => []
  | queueFamily :: rest, graphicsSeen, presentSeen =>
    if (graphicsSeen || queueFamily.offersGraphics) && (presentSeen || queueFamily.offersPresent)
    then [queueFamily]
    else queueFamily ::
      scannedFamilies rest (graphicsSeen || queueFamily.offersGraphics)
        (presentSeen || queueFamily.offersPresent)

/-! ## pickPhysicalDevice (lines 377-410) -/

/-- Member `insert` of `std::multimap<int, VkPhysicalDevice>`: the entries are
kept in ascending order of their keys, and a new entry goes behind the entries
that have the same key. -/
def multimapInsert (entry : Int × PhysicalDevice) :
    List (Int × PhysicalDevice) → List (Int × PhysicalDevice)
  | [] => [entry]
  | e :: rest =>
    if entry.1 < e.1 then entry :: e :: rest else e :: multimapInsert entry rest

/-- The `for` loop of `pickPhysicalDevice` over the remaining devices: every
device is rated (which updates the application state) and inserted with its
score into `candidates`. -/
def pickPhysicalDeviceLoop : List PhysicalDevice → HelloVkTriangleApplication →
    List (Int × PhysicalDevice) → HelloVkTriangleApplication × List (Int × PhysicalDevice)
  | [], app, candidates => (app, candidates)
  | device :: rest, app, candidates =>
    let rated := rateDeviceSuitability app device
    pickPhysicalDeviceLoop rest rated.2 (multimapInsert (rated.1, device) candidates)

/-- Embedding of `HelloVkTriangleApplication::pickPhysicalDevice` for the
devices that `vkEnumeratePhysicalDevices` reports: the returned flag and the
application state after the call.  `candidates.rbegin()` is the last entry of
the multimap; the multimap is not empty there, because `deviceCount` is not 0. -/
def pickPhysicalDevice (app : HelloVkTriangleApplication) (devices : List PhysicalDevice) :
    Bool × HelloVkTriangleApplication :=
  if devices.length = 0 then (false, app)
  else
    let looped := pickPhysicalDeviceLoop devices app []
    let app1 : HelloVkTriangleApplication :=
      match looped.2.getLast? with
      | some best =>
        if best.1 > 0 then { looped.1 with m_physicalDevice := best.2.handle } else looped.1
      | none => looped.1
    if app1.m_physicalDevice = VK_NULL_HANDLE then (false, app1) else (true, app1)

/-- A device for the examples: it has the geometry shader, the swapchain
extension, one surface format and one present mode, so that only the given
fields decide how it is rated. -/
def exampleDevice (handle deviceType maxImageDimension2D : Nat)
    (queueFamilies : List QueueFamily) : PhysicalDevice :=
  { handle := handle, deviceType := deviceType, maxImageDimension2D := maxImageDimension2D,
    geometryShader := 1, queueFamilies := queueFamilies,
    extensions := ["VK_KHR_swapchain"],
    capabilities := ⟨⟨800, 600⟩, ⟨1, 1⟩, ⟨4096, 4096⟩⟩,
    formats := [⟨44, 0⟩], presentModes := [2] }

/-! ## Startup: createSwapChain, initVulkan, run and main -/

/-- The part of `createSwapChain` (lines 412-494) that decides its result, for
the device that `m_physicalDevice` names: each selection function is called in
turn and a failure returns `false`; so does a failure of `vkCreateSwapchainKHR`.
The output parameters are uninitialised locals in the source; the flags do not
depend on their previous values. -/
def createSwapChain (device : PhysicalDevice) (windowWidth windowHeight : Nat)
    (vkCreateSwapchainSucceeds : Bool) : Bool :=
  if !(chooseSwapPresentMode device.presentModes 0).1 then false
  else if !(chooseSwapChainSurfaceFormat device.formats ⟨0, 0⟩).1 then false
  else if !(chooseSwapExtent device.capabilities windowWidth windowHeight ⟨0, 0⟩).1 then false
  else if !vkCreateSwapchainSucceeds then false
  else true

/-- What the surroundings answer during startup: whether the build enables the
validation layers (`NDEBUG` not defined), whether `checkValidationLayerSupport`
finds them, whether `vkCreateInstance` and `vkCreateSwapchainKHR` succeed, and
the devices that `vkEnumeratePhysicalDevices` reports. -/
structure Startup where
  enableValidationLayers : Bool
  validationLayersSupported : Bool
  vkCreateInstanceSucceeds : Bool
  devices : List PhysicalDevice
  vkCreateSwapchainSucceeds : Bool
  deriving DecidableEq, Repr

/-- Result of `initVulkan`: the returned flag, the application state, and the
flag that the call of `createSwapChain` inside it returned (`none` when that
call is not reached); the source does not look at the latter. -/
structure InitVulkanResult where
  returned : Bool
  app : HelloVkTriangleApplication
  createSwapChainReturned : Option Bool
  deriving DecidableEq, Repr

/-- Control flow of `HelloVkTriangleApplication::initVulkan` (lines 905-987).
The window is 480 by 270 (`initWindow`: a quarter of 1920 by 1080).
`createSwapChain` queries the device that `m_physicalDevice` names; after a
successful `pickPhysicalDevice` that is one of the enumerated devices. -/
def initVulkan (env : Startup) (app : HelloVkTriangleApplication) : InitVulkanResult :=
  if env.enableValidationLayers && !env.validationLayersSupported then
    { returned := false, app := app, createSwapChainReturned := none }
  else if !env.vkCreateInstanceSucceeds then
    { returned := false, app := app, createSwapChainReturned := none }
  else
    let picked := pickPhysicalDevice app env.devices
    if !picked.1 then
      { returned := false, app := picked.2, createSwapChainReturned := none }
    else
      let swapChainCreated : Option Bool :=
        (env.devices.find? (fun d => d.handle = picked.2.m_physicalDevice)).map
          (fun device => createSwapChain device 480 270 env.vkCreateSwapchainSucceeds)
      { returned := true, app := picked.2, createSwapChainReturned := swapChainCreated }

/-- The calls that `run` makes, in order; `initVulkan` with the flag it
returned. -/
inductive RunStep where
  | initWindow : RunStep
  | initVulkan : Bool → RunStep
  | mainLoop : RunStep
  | cleanup : RunStep
  deriving DecidableEq, Repr

/-- Control flow of `HelloVkTriangleApplication::run` (lines 261-267): four
calls in sequence, none of them conditional. -/
def run (env : Startup) (app : HelloVkTriangleApplication) : List RunStep :=
  [RunStep.initWindow, RunStep.initVulkan (initVulkan env app).returned, RunStep.mainLoop,
    RunStep.cleanup]

/-- Constant `EXIT_SUCCESS`. -/
def EXIT_SUCCESS : Nat := 0

/-- The function `main`: it constructs the application, calls `run` and, when
that returns, returns `EXIT_SUCCESS`; the steps of `run` and the exit status. -/
def main (env : Startup) : List RunStep × Nat :=
  (run env HelloVkTriangleApplication.create, EXIT_SUCCESS)

/-! ## Lemmas on the present-mode loop -/

theorem chooseSwapPresentModeLoop_mailbox (l : List Nat) (f i : Bool)
    (h : VK_PRESENT_MODE_MAILBOX_KHR ∈ l) :
    chooseSwapPresentModeLoop l f i = Except.error VK_PRESENT_MODE_MAILBOX_KHR := by
  induction l generalizing f i with
  | nil => simp at h
  | cons m rest ih =>
    unfold chooseSwapPresentModeLoop
    by_cases hm : m = VK_PRESENT_MODE_MAILBOX_KHR
    · simp [hm]
    · have hrest : VK_PRESENT_MODE_MAILBOX_KHR ∈ rest := by
        rcases List.mem_cons.mp h with h1 | h1
        · exact absurd h1.symm hm
        · exact h1
      simp only [hm, if_false]
      exact ih _ _ hrest

theorem chooseSwapPresentModeLoop_no_mailbox (l : List Nat) (f i : Bool)
    (h : VK_PRESENT_MODE_MAILBOX_KHR ∉ l) :
    chooseSwapPresentModeLoop l f i =
      Except.ok (f || decide (VK_PRESENT_MODE_FIFO_KHR ∈ l),
                 i || decide (VK_PRESENT_MODE_IMMEDIATE_KHR ∈ l)) := by
  induction l generalizing f i with
  | nil => simp [chooseSwapPresentModeLoop]
  | cons m rest ih =>
    unfold chooseSwapPresentModeLoop
    have hm : m ≠ VK_PRESENT_MODE_MAILBOX_KHR := fun e => h (by simp [e])
    have hrest : VK_PRESENT_MODE_MAILBOX_KHR ∉ rest := fun e => h (List.mem_cons_of_mem _ e)
    simp only [hm, if_false]
    rw [ih _ _ hrest]
    by_cases h1 : m = VK_PRESENT_MODE_FIFO_KHR <;>
      by_cases h2 : m = VK_PRESENT_MODE_IMMEDIATE_KHR <;>
      simp [h1, h2, List.mem_cons, eq_comm] <;>
      simp_all [VK_PRESENT_MODE_FIFO_KHR, VK_PRESENT_MODE_IMMEDIATE_KHR]

/-! ## Claims on chooseSwapPresentMode -/

/-- C1: chooseSwapPresentMode follows the preference order MAILBOX, then
IMMEDIATE, then FIFO: with MAILBOX in the list it succeeds with MAILBOX;
otherwise with IMMEDIATE in the list it succeeds with IMMEDIATE; otherwise with
FIFO in the list it succeeds with FIFO. -/
theorem chooseSwapPresentMode_preference (available : List Nat) (chosen : Nat) :
    (VK_PRESENT_MODE_MAILBOX_KHR ∈ available →
      chooseSwapPresentMode available chosen = (true, VK_PRESENT_MODE_MAILBOX_KHR)) ∧
    (VK_PRESENT_MODE_MAILBOX_KHR ∉ available → VK_PRESENT_MODE_IMMEDIATE_KHR ∈ available →
      chooseSwapPresentMode available chosen = (true, VK_PRESENT_MODE_IMMEDIATE_KHR)) ∧
    (VK_PRESENT_MODE_MAILBOX_KHR ∉ available → VK_PRESENT_MODE_IMMEDIATE_KHR ∉ available →
      VK_PRESENT_MODE_FIFO_KHR ∈ available →
      chooseSwapPresentMode available chosen = (true, VK_PRESENT_MODE_FIFO_KHR)) := by
  refine ⟨fun h => ?_, fun h hi => ?_, fun h hi hf => ?_⟩
  · simp [chooseSwapPresentMode, chooseSwapPresentModeLoop_mailbox _ _ _ h]
  · simp [chooseSwapPresentMode, chooseSwapPresentModeLoop_no_mailbox _ _ _ h, hi]
  · simp [chooseSwapPresentMode, chooseSwapPresentModeLoop_no_mailbox _ _ _ h, hi, hf]

/-- Witness of C1 on the lists FIFO, IMMEDIATE, MAILBOX; FIFO, IMMEDIATE; and FIFO. -/
theorem chooseSwapPresentMode_preference_witness :
    chooseSwapPresentMode [2, 0, 1] 7 = (true, 1) ∧
    chooseSwapPresentMode [2, 0] 7 = (true, 0) ∧
    chooseSwapPresentMode [2] 7 = (true, 2) :=
  ⟨(chooseSwapPresentMode_preference [2, 0, 1] 7).1 (by decide),
   (chooseSwapPresentMode_preference [2, 0] 7).2.1 (by decide) (by decide),
   (chooseSwapPresentMode_preference [2] 7).2.2 (by decide) (by decide) (by decide)⟩

/-- C2: chooseSwapPresentMode returns failure exactly when the list contains none
of MAILBOX, IMMEDIATE and FIFO; in particular it fails on the empty list (and
then leaves the output parameter as it was). -/
theorem chooseSwapPresentMode_fails_iff (available : List Nat) (chosen : Nat) :
    ((chooseSwapPresentMode available chosen).1 = false ↔
      (VK_PRESENT_MODE_MAILBOX_KHR ∉ available ∧ VK_PRESENT_MODE_IMMEDIATE_KHR ∉ available ∧
        VK_PRESENT_MODE_FIFO_KHR ∉ available)) ∧
    chooseSwapPresentMode [] chosen = (false, chosen) := by
  refine ⟨?_, by simp [chooseSwapPresentMode, chooseSwapPresentModeLoop]⟩
  by_cases h : VK_PRESENT_MODE_MAILBOX_KHR ∈ available
  · simp [chooseSwapPresentMode, chooseSwapPresentModeLoop_mailbox _ _ _ h, h]
  · by_cases hi : VK_PRESENT_MODE_IMMEDIATE_KHR ∈ available
    · simp [chooseSwapPresentMode, chooseSwapPresentModeLoop_no_mailbox _ _ _ h, h, hi]
    · by_cases hf : VK_PRESENT_MODE_FIFO_KHR ∈ available
      · simp [chooseSwapPresentMode, chooseSwapPresentModeLoop_no_mailbox _ _ _ h, h, hi, hf]
      · simp [chooseSwapPresentMode, chooseSwapPresentModeLoop_no_mailbox _ _ _ h, h, hi, hf]

/-! ## Claims on chooseSwapChainSurfaceFormat -/

theorem isDefault_iff (f : VkSurfaceFormatKHR) :
    (f.format = VK_FORMAT_B8G8R8A8_UNORM ∧ f.colorSpace = VK_COLOR_SPACE_SRGB_NONLINEAR_KHR) ↔
      f = defaultSurfaceFormat := by
  cases f with
  | mk fmt cs => simp [defaultSurfaceFormat]

theorem chooseSwapChainSurfaceFormatLoop_mem (l : List VkSurfaceFormatKHR)
    (h : defaultSurfaceFormat ∈ l) :
    chooseSwapChainSurfaceFormatLoop l = some defaultSurfaceFormat := by
  induction l with
  | nil => simp at h
  | cons f rest ih =>
    unfold chooseSwapChainSurfaceFormatLoop
    by_cases hf : f = defaultSurfaceFormat
    · rw [if_pos ((isDefault_iff f).mpr hf), hf]
    · rw [if_neg (fun c => hf ((isDefault_iff f).mp c))]
      rcases List.mem_cons.mp h with h1 | h1
      · exact absurd h1.symm hf
      · exact ih h1

theorem chooseSwapChainSurfaceFormatLoop_not_mem (l : List VkSurfaceFormatKHR)
    (h : defaultSurfaceFormat ∉ l) :
    chooseSwapChainSurfaceFormatLoop l = none := by
  induction l with
  | nil => rfl
  | cons f rest ih =>
    unfold chooseSwapChainSurfaceFormatLoop
    have hf : f ≠ defaultSurfaceFormat := fun e => h (by simp [e])
    rw [if_neg (fun c => hf ((isDefault_iff f).mp c))]
    exact ih (fun e => h (List.mem_cons_of_mem _ e))

theorem singleUndefined_guard_iff (l : List VkSurfaceFormatKHR) :
    (l.length = 1 ∧ (l[0]?).map VkSurfaceFormatKHR.format = some VK_FORMAT_UNDEFINED) ↔
      isSingleUndefined l := by
  constructor
  · rintro ⟨hlen, hfmt⟩
    match l, hlen, hfmt with
    | [f], _, hfmt =>
      cases f with
      | mk fmt cs =>
        simp at hfmt
        exact ⟨cs, by simp [hfmt]⟩
  · rintro ⟨cs, rfl⟩
    simp

/-- C3: on a list with exactly one entry, whose format is UNDEFINED (any color
space), chooseSwapChainSurfaceFormat succeeds and chooses
(B8G8R8A8_UNORM, SRGB_NONLINEAR). -/
theorem chooseSwapChainSurfaceFormat_single_undefined (colorSpace : Nat)
    (chosen : VkSurfaceFormatKHR) :
    chooseSwapChainSurfaceFormat
        [{ format := VK_FORMAT_UNDEFINED, colorSpace := colorSpace }] chosen =
      (true, { format := VK_FORMAT_B8G8R8A8_UNORM,
               colorSpace := VK_COLOR_SPACE_SRGB_NONLINEAR_KHR }) := by
  simp [chooseSwapChainSurfaceFormat]

/-- C4: on a list that is not a single UNDEFINED entry, if the list contains an
entry equal to (B8G8R8A8_UNORM, SRGB_NONLINEAR) chooseSwapChainSurfaceFormat
succeeds with that entry; otherwise, if the list is non-empty, it succeeds with
the first entry of the list. -/
theorem chooseSwapChainSurfaceFormat_scan (available : List VkSurfaceFormatKHR)
    (chosen : VkSurfaceFormatKHR) (h : ¬ isSingleUndefined available) :
    (defaultSurfaceFormat ∈ available →
      chooseSwapChainSurfaceFormat available chosen = (true, defaultSurfaceFormat)) ∧
    (defaultSurfaceFormat ∉ available → ∀ first rest, available = first :: rest →
      chooseSwapChainSurfaceFormat available chosen = (true, first)) := by
  have hg := mt (singleUndefined_guard_iff available).mp h
  constructor
  · intro hmem
    unfold chooseSwapChainSurfaceFormat
    rw [if_neg hg, chooseSwapChainSurfaceFormatLoop_mem _ hmem]
  · intro hmem first rest hl
    unfold chooseSwapChainSurfaceFormat
    rw [if_neg hg, chooseSwapChainSurfaceFormatLoop_not_mem _ hmem]
    subst hl
    simp

/-- Witness of C4: a list holding the default entry in second place, and a list
without it. -/
theorem chooseSwapChainSurfaceFormat_scan_witness :
    chooseSwapChainSurfaceFormat [⟨37, 0⟩, ⟨44, 0⟩] ⟨0, 0⟩ = (true, ⟨44, 0⟩) ∧
    chooseSwapChainSurfaceFormat [⟨37, 0⟩, ⟨50, 0⟩] ⟨0, 0⟩ = (true, ⟨37, 0⟩) :=
  ⟨(chooseSwapChainSurfaceFormat_scan [⟨37, 0⟩, ⟨44, 0⟩] ⟨0, 0⟩
      (by rintro ⟨cs, hcs⟩; simp at hcs)).1 (by decide),
   (chooseSwapChainSurfaceFormat_scan [⟨37, 0⟩, ⟨50, 0⟩] ⟨0, 0⟩
      (by rintro ⟨cs, hcs⟩; simp at hcs)).2 (by decide) ⟨37, 0⟩ [⟨50, 0⟩] rfl⟩

/-- C5: chooseSwapChainSurfaceFormat returns failure exactly when the list of
formats is empty. -/
theorem chooseSwapChainSurfaceFormat_fails_iff (available : List VkSurfaceFormatKHR)
    (chosen : VkSurfaceFormatKHR) :
    (chooseSwapChainSurfaceFormat available chosen).1 = false ↔ available = [] := by
  constructor
  · intro hfail
    cases available with
    | nil => rfl
    | cons f rest =>
      exfalso
      unfold chooseSwapChainSurfaceFormat at hfail
      split at hfail
      · simp at hfail
      · split at hfail
        · simp at hfail
        · simp at hfail
  · rintro rfl
    simp [chooseSwapChainSurfaceFormat, chooseSwapChainSurfaceFormatLoop]

/-! ## Claims on chooseSwapExtent -/

theorem max_min_eq_clampInto (lo hi x : Nat) (h : lo ≤ hi) :
    max lo (min hi x) = clampInto lo hi x := by
  unfold clampInto
  split_ifs <;> omega

/-- C6: when the current-extent width is the sentinel 0xFFFFFFFF and the minimum
extent is at most the maximum extent on each axis, chooseSwapExtent succeeds
with the desired width clamped between the minimum and maximum widths and the
desired height clamped between the minimum and maximum heights, each axis on
its own; with minimum (100,100), maximum (2000,2000) and desired (4000,50) the
result is (2000,100). -/
theorem chooseSwapExtent_sentinel_clamps :
    (∀ (capabilities : VkSurfaceCapabilitiesKHR) (windowWidth windowHeight : Nat)
        (chosen : VkExtent2D),
      capabilities.currentExtent.width = UINT32_MAX →
      capabilities.minImageExtent.width ≤ capabilities.maxImageExtent.width →
      capabilities.minImageExtent.height ≤ capabilities.maxImageExtent.height →
      chooseSwapExtent capabilities windowWidth windowHeight chosen =
        (true,
         { width := clampInto capabilities.minImageExtent.width
                      capabilities.maxImageExtent.width windowWidth,
           height := clampInto capabilities.minImageExtent.height
                       capabilities.maxImageExtent.height windowHeight })) ∧
    (∀ (currentHeight : Nat) (chosen : VkExtent2D),
      chooseSwapExtent
          { currentExtent := { width := UINT32_MAX, height := currentHeight },
            minImageExtent := { width := 100, height := 100 },
            maxImageExtent := { width := 2000, height := 2000 } } 4000 50 chosen =
        (true, { width := 2000, height := 100 })) := by
  constructor
  · intro capabilities windowWidth windowHeight chosen hs hw hh
    unfold chooseSwapExtent
    rw [if_neg (not_not.mpr hs)]
    simp only [max_min_eq_clampInto _ _ _ hw, max_min_eq_clampInto _ _ _ hh]
  · intro currentHeight chosen
    simp [chooseSwapExtent]

/-- Witness of C6 with minimum (100,100), maximum (2000,2000), desired (4000,50). -/
theorem chooseSwapExtent_sentinel_clamps_witness :
    chooseSwapExtent ⟨⟨4294967295, 4294967295⟩, ⟨100, 100⟩, ⟨2000, 2000⟩⟩ 4000 50 ⟨0, 0⟩ =
      (true, ⟨clampInto 100 2000 4000, clampInto 100 2000 50⟩) :=
  chooseSwapExtent_sentinel_clamps.1 ⟨⟨4294967295, 4294967295⟩, ⟨100, 100⟩, ⟨2000, 2000⟩⟩
    4000 50 ⟨0, 0⟩ rfl (by decide) (by decide)

/-- C7: when the current-extent width is not the sentinel 0xFFFFFFFF,
chooseSwapExtent succeeds and returns the current extent of the surface
unchanged, whatever the desired size; a current extent of (800,600) always
gives (800,600). -/
theorem chooseSwapExtent_fixed :
    (∀ (capabilities : VkSurfaceCapabilitiesKHR) (windowWidth windowHeight : Nat)
        (chosen : VkExtent2D),
      capabilities.currentExtent.width ≠ UINT32_MAX →
      chooseSwapExtent capabilities windowWidth windowHeight chosen =
        (true, capabilities.currentExtent)) ∧
    (∀ (minImageExtent maxImageExtent : VkExtent2D) (windowWidth windowHeight : Nat)
        (chosen : VkExtent2D),
      chooseSwapExtent
          { currentExtent := { width := 800, height := 600 },
            minImageExtent := minImageExtent, maxImageExtent := maxImageExtent }
          windowWidth windowHeight chosen =
        (true, { width := 800, height := 600 })) := by
  constructor
  · intro capabilities windowWidth windowHeight chosen hs
    unfold chooseSwapExtent
    rw [if_pos hs]
  · intro minImageExtent maxImageExtent windowWidth windowHeight chosen
    simp [chooseSwapExtent, UINT32_MAX]

/-- Witness of C7 with current extent (1024,768) and desired size (4000,50). -/
theorem chooseSwapExtent_fixed_witness :
    chooseSwapExtent ⟨⟨1024, 768⟩, ⟨1, 1⟩, ⟨4096, 4096⟩⟩ 4000 50 ⟨0, 0⟩ =
      (true, ⟨1024, 768⟩) :=
  chooseSwapExtent_fixed.1 ⟨⟨1024, 768⟩, ⟨1, 1⟩, ⟨4096, 4096⟩⟩ 4000 50 ⟨0, 0⟩ (by decide)

/-- Counterexample to C8 as stated: with current extent (800,600), minimum
(1000,1000) and maximum (2000,2000) the chosen extent is (800,600), whose width
is below the minimum width; and with the sentinel current width, minimum
(500,500) and maximum (100,100), the chosen width 500 is above the maximum. -/
theorem chooseSwapExtent_bounded_counterexample :
    (chooseSwapExtent ⟨⟨800, 600⟩, ⟨1000, 1000⟩, ⟨2000, 2000⟩⟩ 1200 1200 ⟨0, 0⟩ =
        (true, ⟨800, 600⟩) ∧
      ¬ extentWithinBounds ⟨⟨800, 600⟩, ⟨1000, 1000⟩, ⟨2000, 2000⟩⟩
          (chooseSwapExtent ⟨⟨800, 600⟩, ⟨1000, 1000⟩, ⟨2000, 2000⟩⟩ 1200 1200 ⟨0, 0⟩).2) ∧
    ¬ extentWithinBounds ⟨⟨4294967295, 4294967295⟩, ⟨500, 500⟩, ⟨100, 100⟩⟩
        (chooseSwapExtent ⟨⟨4294967295, 4294967295⟩, ⟨500, 500⟩, ⟨100, 100⟩⟩ 300 300 ⟨0, 0⟩).2 := by
  decide

/-- C8 (amended): when the current extent of the surface is fixed (its width is
not the sentinel) and lies within the reported minimum and maximum, or its width
is the sentinel and the minimum extent is at most the maximum extent on each
axis, the extent chosen by chooseSwapExtent is bounded by the reported minimum
and maximum on both axes. -/
theorem chooseSwapExtent_bounded (capabilities : VkSurfaceCapabilitiesKHR)
    (windowWidth windowHeight : Nat) (chosen : VkExtent2D)
    (hfixed : capabilities.currentExtent.width ≠ UINT32_MAX →
      extentWithinBounds capabilities capabilities.currentExtent)
    (hany : capabilities.currentExtent.width = UINT32_MAX →
      capabilities.minImageExtent.width ≤ capabilities.maxImageExtent.width ∧
      capabilities.minImageExtent.height ≤ capabilities.maxImageExtent.height) :
    extentWithinBounds capabilities
      (chooseSwapExtent capabilities windowWidth windowHeight chosen).2 := by
  by_cases hs : capabilities.currentExtent.width = UINT32_MAX
  · obtain ⟨hw, hh⟩ := hany hs
    unfold chooseSwapExtent
    rw [if_neg (not_not.mpr hs)]
    unfold extentWithinBounds
    simp only
    omega
  · unfold chooseSwapExtent
    rw [if_pos hs]
    exact hfixed hs

/-- Witness of C8 (amended), one input for each branch of chooseSwapExtent. -/
theorem chooseSwapExtent_bounded_witness :
    extentWithinBounds ⟨⟨4294967295, 4294967295⟩, ⟨100, 100⟩, ⟨2000, 2000⟩⟩
        (chooseSwapExtent ⟨⟨4294967295, 4294967295⟩, ⟨100, 100⟩, ⟨2000, 2000⟩⟩
          4000 50 ⟨0, 0⟩).2 ∧
    extentWithinBounds ⟨⟨800, 600⟩, ⟨100, 100⟩, ⟨2000, 2000⟩⟩
        (chooseSwapExtent ⟨⟨800, 600⟩, ⟨100, 100⟩, ⟨2000, 2000⟩⟩ 4000 50 ⟨0, 0⟩).2 :=
  ⟨chooseSwapExtent_bounded ⟨⟨4294967295, 4294967295⟩, ⟨100, 100⟩, ⟨2000, 2000⟩⟩ 4000 50 ⟨0, 0⟩
      (fun hne => absurd rfl hne) (fun _ => by decide),
   chooseSwapExtent_bounded ⟨⟨800, 600⟩, ⟨100, 100⟩, ⟨2000, 2000⟩⟩ 4000 50 ⟨0, 0⟩
      (fun _ => by decide) (fun he => absurd he (by decide))⟩

/-! ## Claims on rateDeviceSuitability -/

theorem requiredExtensionsLoop_eq_true_iff (required available : List String) :
    requiredExtensionsLoop required available = true ↔ ∀ e ∈ required, e ∈ available := by
  induction required with
  | nil => simp [requiredExtensionsLoop]
  | cons e rest ih =>
    unfold requiredExtensionsLoop
    by_cases he : e ∈ available
    · have hsome : ∃ x, available.find? (fun ext => ext == e) = some x := by
        cases hf : available.find? (fun ext => ext == e) with
        | none =>
          rw [List.find?_eq_none] at hf
          exact absurd (by simp) (hf e he)
        | some x => exact ⟨x, rfl⟩
      obtain ⟨x, hx⟩ := hsome
      simp [hx, ih, he]
    · have hnone : available.find? (fun ext => ext == e) = none := by
        rw [List.find?_eq_none]
        intro x hx hxe
        have : x = e := by simpa using hxe
        exact he (this ▸ hx)
      simp [hnone, he]

theorem toInt32_of_lt (n : Nat) (h : n < 2 ^ 31) : toInt32 n = (n : Int) := by
  have h1 : n % 2 ^ 32 = n := Nat.mod_eq_of_lt (by omega)
  unfold toInt32
  rw [h1, if_pos h]

/-- C9: rateDeviceSuitability returns 0 when the candidate lacks the
geometry-shader feature, or findQueueFamilies on it is not complete, or some
required device extension is missing from its extension list, or it reports no
surface format, or it reports no present mode. -/
theorem rateDeviceSuitability_rejects (app : HelloVkTriangleApplication)
    (device : PhysicalDevice)
    (h : device.geometryShader = 0 ∨ (findQueueFamilies device).isComplete = false ∨
      missesRequiredExtension app device ∨ device.formats = [] ∨ device.presentModes = []) :
    (rateDeviceSuitability app device).1 = 0 := by
  unfold rateDeviceSuitability
  simp only
  by_cases h1 : device.geometryShader = 0
  · rw [if_pos h1]
  rw [if_neg h1]
  by_cases h2 : (!(findQueueFamilies device).isComplete) = true
  · rw [if_pos h2]
  rw [if_neg h2]
  by_cases h3 :
      (!requiredExtensionsLoop app.m_requiredDeviceExtensions device.extensions) = true
  · rw [if_pos h3]
  rw [if_neg h3]
  by_cases h4 : (device.formats.isEmpty || device.presentModes.isEmpty) = true
  · rw [if_pos h4]
  exfalso
  rcases h with h | h | h | h | h
  · exact h1 h
  · simp [h] at h2
  · obtain ⟨e, he, hne⟩ := h
    have h3t : requiredExtensionsLoop app.m_requiredDeviceExtensions device.extensions = true := by
      simpa using h3
    exact hne ((requiredExtensionsLoop_eq_true_iff _ _).mp h3t e he)
  · simp [h] at h4
  · simp [h] at h4

/-- Witness of C9: for the freshly constructed application, a device with
every other property in order but without the swapchain extension scores 0. -/
theorem rateDeviceSuitability_rejects_witness :
    (rateDeviceSuitability HelloVkTriangleApplication.create
      { handle := 1, deviceType := 2, maxImageDimension2D := 16384, geometryShader := 1,
        queueFamilies := [⟨1, 1, 1⟩], extensions := ["VK_KHR_maintenance1"],
        capabilities := ⟨⟨800, 600⟩, ⟨1, 1⟩, ⟨4096, 4096⟩⟩,
        formats := [⟨44, 0⟩], presentModes := [2] }).1 = 0 :=
  rateDeviceSuitability_rejects HelloVkTriangleApplication.create _
    (Or.inr (Or.inr (Or.inl ⟨VK_KHR_SWAPCHAIN_EXTENSION_NAME,
      by simp [HelloVkTriangleApplication.create],
      by simp [VK_KHR_SWAPCHAIN_EXTENSION_NAME]⟩)))

/-- C10: for a candidate that passes all rejection checks (geometry shader,
complete queue families, every required extension, at least one format and one
present mode) and whose maxImageDimension2D is below 2^31 - 100,
rateDeviceSuitability returns exactly bonus + maxImageDimension2D, where bonus
is 100 for a discrete GPU and 0 otherwise. -/
theorem rateDeviceSuitability_score (app : HelloVkTriangleApplication)
    (device : PhysicalDevice) (hpass : passesRejectionChecks app device)
    (hdim : device.maxImageDimension2D < 2 ^ 31 - 100) :
    (rateDeviceSuitability app device).1 =
      discreteBonus device + (device.maxImageDimension2D : Int) := by
  obtain ⟨hg, hq, he, hf, hp⟩ := hpass
  have he1 : requiredExtensionsLoop app.m_requiredDeviceExtensions device.extensions = true :=
    (requiredExtensionsLoop_eq_true_iff _ _).mpr he
  unfold rateDeviceSuitability discreteBonus
  simp only [hg, hq, he1, if_false, Bool.not_true, Bool.false_eq_true]
  have hf1 : device.formats.isEmpty = false := by
    cases hfe : device.formats with
    | nil => exact absurd hfe hf
    | cons a l => rfl
  have hp1 : device.presentModes.isEmpty = false := by
    cases hpe : device.presentModes with
    | nil => exact absurd hpe hp
    | cons a l => rfl
  simp only [hf1, hp1, Bool.or_false, Bool.false_eq_true, if_false]
  by_cases hd : device.deviceType = VK_PHYSICAL_DEVICE_TYPE_DISCRETE_GPU
  · simp only [hd, if_true]
    have hlt : (100 + device.maxImageDimension2D) < 2 ^ 31 := by omega
    have hmod : ((0 + 100 : Int).toNat + device.maxImageDimension2D) % 2 ^ 32 =
        100 + device.maxImageDimension2D := by
      have : (0 + 100 : Int).toNat = 100 := by decide
      rw [this]
      exact Nat.mod_eq_of_lt (by omega)
    rw [hmod, toInt32_of_lt _ hlt]
    push_cast
    ring
  · simp only [hd, if_false]
    have hlt : device.maxImageDimension2D < 2 ^ 31 := by omega
    have hmod : ((0 : Int).toNat + device.maxImageDimension2D) % 2 ^ 32 =
        device.maxImageDimension2D := by
      have : (0 : Int).toNat = 0 := by decide
      rw [this, Nat.zero_add]
      exact Nat.mod_eq_of_lt (by omega)
    rw [hmod, toInt32_of_lt _ hlt]
    ring

/-- Witness of C10: a discrete GPU with maxImageDimension2D = 16384 scores 16484. -/
theorem rateDeviceSuitability_score_witness :
    (rateDeviceSuitability HelloVkTriangleApplication.create
      { handle := 1, deviceType := 2, maxImageDimension2D := 16384, geometryShader := 1,
        queueFamilies := [⟨1, 1, 1⟩], extensions := ["VK_KHR_swapchain"],
        capabilities := ⟨⟨800, 600⟩, ⟨1, 1⟩, ⟨4096, 4096⟩⟩,
        formats := [⟨44, 0⟩], presentModes := [2] }).1 = 100 + 16384 :=
  rateDeviceSuitability_score HelloVkTriangleApplication.create _
    ⟨by decide, by decide,
     by simp [HelloVkTriangleApplication.create, VK_KHR_SWAPCHAIN_EXTENSION_NAME],
     by simp, by simp⟩
    (by decide)

/-! ## Order independence of chooseSwapPresentMode -/

theorem chooseSwapPresentMode_eq (available : List Nat) (chosen : Nat) :
    chooseSwapPresentMode available chosen =
      if VK_PRESENT_MODE_MAILBOX_KHR ∈ available then (true, VK_PRESENT_MODE_MAILBOX_KHR)
      else if VK_PRESENT_MODE_IMMEDIATE_KHR ∈ available then (true, VK_PRESENT_MODE_IMMEDIATE_KHR)
      else if VK_PRESENT_MODE_FIFO_KHR ∈ available then (true, VK_PRESENT_MODE_FIFO_KHR)
      else (false, chosen) := by
  by_cases h : VK_PRESENT_MODE_MAILBOX_KHR ∈ available
  · simp [chooseSwapPresentMode, chooseSwapPresentModeLoop_mailbox _ _ _ h, h]
  · by_cases hi : VK_PRESENT_MODE_IMMEDIATE_KHR ∈ available
    · simp [chooseSwapPresentMode, chooseSwapPresentModeLoop_no_mailbox _ _ _ h, h, hi]
    · by_cases hf : VK_PRESENT_MODE_FIFO_KHR ∈ available
      · simp [chooseSwapPresentMode, chooseSwapPresentModeLoop_no_mailbox _ _ _ h, h, hi, hf]
      · simp [chooseSwapPresentMode, chooseSwapPresentModeLoop_no_mailbox _ _ _ h, h, hi, hf]

/-- C17: chooseSwapPresentMode does not depend on the order of the available
list: on two lists that are permutations of each other it returns the same
success flag and, on success, the same chosen mode, whatever the output
parameters held before. -/
theorem chooseSwapPresentMode_perm (available1 available2 : List Nat) (chosen1 chosen2 : Nat)
    (h : available1.Perm available2) :
    (chooseSwapPresentMode available1 chosen1).1 = (chooseSwapPresentMode available2 chosen2).1 ∧
    ((chooseSwapPresentMode available1 chosen1).1 = true →
      (chooseSwapPresentMode available1 chosen1).2 =
        (chooseSwapPresentMode available2 chosen2).2) := by
  rw [chooseSwapPresentMode_eq, chooseSwapPresentMode_eq]
  simp only [h.mem_iff]
  split_ifs <;> simp

/-- Witness of C17 on two orders of IMMEDIATE, FIFO and an unknown mode. -/
theorem chooseSwapPresentMode_perm_witness :
    (chooseSwapPresentMode [0, 2, 5] 7).1 = (chooseSwapPresentMode [5, 2, 0] 9).1 ∧
    ((chooseSwapPresentMode [0, 2, 5] 7).1 = true →
      (chooseSwapPresentMode [0, 2, 5] 7).2 = (chooseSwapPresentMode [5, 2, 0] 9).2) :=
  chooseSwapPresentMode_perm [0, 2, 5] [5, 2, 0] 7 9 (by decide)

/-! ## Lemmas on the queue-family scan -/

theorem lastIndexWhere_ge (p : QueueFamily → Bool) (l : List QueueFamily) :
    -1 ≤ lastIndexWhere p l := by
  induction l with
  | nil => simp [lastIndexWhere]
  | cons a l ih =>
    simp only [lastIndexWhere]
    split_ifs <;> omega

theorem lastIndexWhere_append_singleton (p : QueueFamily → Bool) (pre : List QueueFamily)
    (q : QueueFamily) :
    lastIndexWhere p (pre ++ [q]) =
      if p q = true then (pre.length : Int) else lastIndexWhere p pre := by
  induction pre with
  | nil => by_cases h : p q = true <;> simp [lastIndexWhere, h]
  | cons a pre ih =>
    show lastIndexWhere p (a :: (pre ++ [q])) = _
    rw [lastIndexWhere, ih]
    by_cases h : p q = true
    · simp only [h, if_true, List.length_cons]
      have : (0 : Int) ≤ (pre.length : Int) := Int.natCast_nonneg _
      rw [if_pos (by omega)]
      push_cast
      ring
    · simp only [h, if_false]
      rw [lastIndexWhere]
      simp

/-- The index `lastIndexWhere` returns is -1 when `p` holds nowhere in the
list; otherwise it is a position of the list where `p` holds and behind which
`p` holds nowhere. -/
theorem lastIndexWhere_spec (p : QueueFamily → Bool) (l : List QueueFamily) :
    (lastIndexWhere p l = -1 ∧ ∀ q ∈ l, p q = false) ∨
    (∃ (n : Nat) (q : QueueFamily), lastIndexWhere p l = (n : Int) ∧ l[n]? = some q ∧ p q = true ∧
      ∀ (m : Nat) (q1 : QueueFamily), n < m → l[m]? = some q1 → p q1 = false) := by
  induction l with
  | nil => left; simp [lastIndexWhere]
  | cons a l ih =>
    simp only [lastIndexWhere]
    rcases ih with ⟨h1, h2⟩ | ⟨n, q, h1, h2, h3, h4⟩
    · rw [h1]
      simp only [show ¬ ((-1 : Int) ≥ 0) by omega, if_false]
      by_cases ha : p a = true
      · right
        refine ⟨0, a, by simp [ha], by simp, ha, ?_⟩
        intro m q1 hm hq1
        cases m with
        | zero => omega
        | succ k =>
          simp only [List.getElem?_cons_succ] at hq1
          exact h2 q1 (List.getElem?_mem hq1)
      · left
        refine ⟨by simp [ha], ?_⟩
        intro q1 hq1
        rcases List.mem_cons.mp hq1 with h | h
        · rw [h]; simpa using ha
        · exact h2 q1 h
    · right
      rw [h1]
      have hn : (n : Int) ≥ 0 := Int.natCast_nonneg _
      rw [if_pos hn]
      refine ⟨n + 1, q, by push_cast; ring, by simpa using h2, h3, ?_⟩
      intro m q1 hm hq1
      cases m with
      | zero => omega
      | succ k =>
        simp only [List.getElem?_cons_succ] at hq1
        exact h4 k q1 (by omega) hq1

theorem scannedFamilies_prefix (l : List QueueFamily) (g p : Bool) :
    scannedFamilies l g p <+: l := by
  induction l generalizing g p with
  | nil => simp [scannedFamilies]
  | cons a l ih =>
    simp only [scannedFamilies]
    split_ifs
    · exact ⟨l, by simp⟩
    · exact (List.prefix_cons_inj a).mpr (ih _ _)

theorem isComplete_eq (indices : QueueFamilyIndices) :
    indices.isComplete =
      (decide (indices.graphicsFamily ≥ 0) && decide (indices.presentFamily ≥ 0)) := rfl

theorem findQueueFamiliesLoop_cons (q : QueueFamily) (rest : List QueueFamily) (i : Int)
    (indices : QueueFamilyIndices) :
    findQueueFamiliesLoop (q :: rest) i indices =
      if (QueueFamilyIndices.mk (if q.offersGraphics = true then i else indices.graphicsFamily)
            (if q.offersPresent = true then i else indices.presentFamily)).isComplete = true then
        QueueFamilyIndices.mk (if q.offersGraphics = true then i else indices.graphicsFamily)
          (if q.offersPresent = true then i else indices.presentFamily)
      else
        findQueueFamiliesLoop rest (i + 1)
          (QueueFamilyIndices.mk (if q.offersGraphics = true then i else indices.graphicsFamily)
            (if q.offersPresent = true then i else indices.presentFamily)) := by
  have e1 : q.offersGraphics = true ↔
      (q.queueCount > 0 ∧ q.queueFlags &&& VK_QUEUE_GRAPHICS_BIT ≠ 0) := by
    unfold QueueFamily.offersGraphics
    exact decide_eq_true_iff
  have e2 : q.offersPresent = true ↔ (q.queueCount > 0 ∧ q.presentSupport ≠ 0) := by
    unfold QueueFamily.offersPresent
    exact decide_eq_true_iff
  rw [findQueueFamiliesLoop]
  by_cases h1 : q.queueCount > 0 ∧ q.queueFlags &&& VK_QUEUE_GRAPHICS_BIT ≠ 0 <;>
    by_cases h2 : q.queueCount > 0 ∧ q.presentSupport ≠ 0
  · rw [if_pos (e1.mpr h1), if_pos (e2.mpr h2)]
    simp only [if_pos h1, if_pos h2]
  · rw [if_pos (e1.mpr h1), if_neg (fun h => h2 (e2.mp h))]
    simp only [if_pos h1, if_neg h2]
  · rw [if_neg (fun h => h1 (e1.mp h)), if_pos (e2.mpr h2)]
    simp only [if_neg h1, if_pos h2]
  · rw [if_neg (fun h => h1 (e1.mp h)), if_neg (fun h => h2 (e2.mp h))]
    simp only [if_neg h1, if_neg h2]

/-- The loop of `findQueueFamilies`, started behind the families `pre` with the
last graphics and present indices of `pre`, ends with the last graphics and
present indices of `pre` followed by the families it scans. -/
theorem findQueueFamiliesLoop_eq (rest pre : List QueueFamily) (indices : QueueFamilyIndices)
    (hg : indices.graphicsFamily = lastIndexWhere QueueFamily.offersGraphics pre)
    (hp : indices.presentFamily = lastIndexWhere QueueFamily.offersPresent pre) :
    findQueueFamiliesLoop rest pre.length indices =
      { graphicsFamily := lastIndexWhere QueueFamily.offersGraphics
          (pre ++ scannedFamilies rest (decide (indices.graphicsFamily ≥ 0))
            (decide (indices.presentFamily ≥ 0))),
        presentFamily := lastIndexWhere QueueFamily.offersPresent
          (pre ++ scannedFamilies rest (decide (indices.graphicsFamily ≥ 0))
            (decide (indices.presentFamily ≥ 0))) } := by
  induction rest generalizing pre indices with
  | nil =>
    simp only [findQueueFamiliesLoop, scannedFamilies, List.append_nil, ← hg, ← hp]
  | cons q rest ih =>
    have hlen : (0 : Int) ≤ (pre.length : Int) := Int.natCast_nonneg _
    have hg1 := lastIndexWhere_append_singleton QueueFamily.offersGraphics pre q
    have hp1 := lastIndexWhere_append_singleton QueueFamily.offersPresent pre q
    have hlen1 : (((pre ++ [q]).length : Nat) : Int) = (pre.length : Int) + 1 := by simp
    have happ : ∀ S : List QueueFamily, pre ++ q :: S = (pre ++ [q]) ++ S := by simp
    have hdg : decide ((if q.offersGraphics = true then (pre.length : Int)
        else indices.graphicsFamily) ≥ 0) =
        (decide (indices.graphicsFamily ≥ 0) || q.offersGraphics) := by
      by_cases h : q.offersGraphics = true
      · simp [h]
      · simp [h]
    have hdp : decide ((if q.offersPresent = true then (pre.length : Int)
        else indices.presentFamily) ≥ 0) =
        (decide (indices.presentFamily ≥ 0) || q.offersPresent) := by
      by_cases h : q.offersPresent = true
      · simp [h]
      · simp [h]
    rw [findQueueFamiliesLoop_cons, scannedFamilies, isComplete_eq]
    simp only []
    rw [hdg, hdp]
    by_cases hc : ((decide (indices.graphicsFamily ≥ 0) || q.offersGraphics) &&
        (decide (indices.presentFamily ≥ 0) || q.offersPresent)) = true
    · rw [if_pos hc, if_pos hc, hg1, hp1, ← hg, ← hp]
    · rw [if_neg hc, if_neg hc, happ, ← hlen1]
      rw [ih (pre ++ [q]) _ (by rw [hg1, ← hg]) (by rw [hp1, ← hp])]
      simp only []
      rw [hdg, hdp]

theorem findQueueFamilies_eq (device : PhysicalDevice) :
    findQueueFamilies device =
      { graphicsFamily := lastIndexWhere QueueFamily.offersGraphics
          (scannedFamilies device.queueFamilies false false),
        presentFamily := lastIndexWhere QueueFamily.offersPresent
          (scannedFamilies device.queueFamilies false false) } := by
  have h := findQueueFamiliesLoop_eq device.queueFamilies [] {} rfl rfl
  simpa [findQueueFamilies] using h

theorem lastIndexWhere_valid_of_prefix (p : QueueFamily → Bool) (S l : List QueueFamily)
    (h : S <+: l) :
    lastIndexWhere p S = -1 ∨
    ∃ (i : Nat) (q : QueueFamily), lastIndexWhere p S = (i : Int) ∧ i < l.length ∧
      l[i]? = some q ∧ p q = true := by
  rcases lastIndexWhere_spec p S with ⟨h1, _⟩ | ⟨n, q, h1, h2, h3, _⟩
  · exact Or.inl h1
  · right
    obtain ⟨t, rfl⟩ := h
    have hn : n < S.length := (List.getElem?_eq_some.mp h2).1
    refine ⟨n, q, h1, ?_, ?_, h3⟩
    · rw [List.length_append]; omega
    · rw [List.getElem?_append_left hn]; exact h2

/-! ## Claims on findQueueFamilies -/

/-- C18: each index returned by findQueueFamilies is either unset (-1) or a
valid position i of the queue-family list (0 <= i < n); a set graphics index
names a family with a non-zero queue count and the graphics bit, a set present
index names a family with a non-zero queue count and presentation support; and
the selection is complete exactly when both indices are set. -/
theorem findQueueFamilies_indices_valid (device : PhysicalDevice) :
    ((findQueueFamilies device).graphicsFamily = -1 ∨
      ∃ (i : Nat) (q : QueueFamily), (findQueueFamilies device).graphicsFamily = (i : Int) ∧
        i < device.queueFamilies.length ∧ device.queueFamilies[i]? = some q ∧
        q.queueCount > 0 ∧ q.queueFlags &&& VK_QUEUE_GRAPHICS_BIT ≠ 0) ∧
    ((findQueueFamilies device).presentFamily = -1 ∨
      ∃ (i : Nat) (q : QueueFamily), (findQueueFamilies device).presentFamily = (i : Int) ∧
        i < device.queueFamilies.length ∧ device.queueFamilies[i]? = some q ∧
        q.queueCount > 0 ∧ q.presentSupport ≠ 0) ∧
    ((findQueueFamilies device).isComplete = true ↔
      ((findQueueFamilies device).graphicsFamily ≠ -1 ∧
        (findQueueFamilies device).presentFamily ≠ -1)) := by
  have hpre := scannedFamilies_prefix device.queueFamilies false false
  have hG := lastIndexWhere_valid_of_prefix QueueFamily.offersGraphics _ _ hpre
  have hP := lastIndexWhere_valid_of_prefix QueueFamily.offersPresent _ _ hpre
  have hg1 := lastIndexWhere_ge QueueFamily.offersGraphics
    (scannedFamilies device.queueFamilies false false)
  have hp1 := lastIndexWhere_ge QueueFamily.offersPresent
    (scannedFamilies device.queueFamilies false false)
  rw [findQueueFamilies_eq]
  refine ⟨?_, ?_, ?_⟩
  · rcases hG with h | ⟨i, q, h1, h2, h3, h4⟩
    · exact Or.inl h
    · exact Or.inr ⟨i, q, h1, h2, h3, by
        simpa [QueueFamily.offersGraphics] using h4⟩
  · rcases hP with h | ⟨i, q, h1, h2, h3, h4⟩
    · exact Or.inl h
    · exact Or.inr ⟨i, q, h1, h2, h3, by
        simpa [QueueFamily.offersPresent] using h4⟩
  · rw [isComplete_eq]
    simp only [Bool.and_eq_true, decide_eq_true_eq]
    constructor
    · rintro ⟨a, b⟩
      exact ⟨by omega, by omega⟩
    · rintro ⟨a, b⟩
      exact ⟨by omega, by omega⟩

/-- C19: on the families graphics-only, present-only, graphics+present the
selection of findQueueFamilies is complete with graphics index 0 and present
index 1, although the family at index 2 offers both: a combined family that
comes later is not preferred. -/
theorem findQueueFamilies_no_combined_preference :
    findQueueFamilies (exampleDevice 1 2 4096 [⟨1, 1, 0⟩, ⟨0, 1, 1⟩, ⟨1, 1, 1⟩]) =
      { graphicsFamily := 0, presentFamily := 1 } ∧
    (findQueueFamilies (exampleDevice 1 2 4096 [⟨1, 1, 0⟩, ⟨0, 1, 1⟩, ⟨1, 1, 1⟩])).isComplete
      = true ∧
    (∃ q ∈ (exampleDevice 1 2 4096 [⟨1, 1, 0⟩, ⟨0, 1, 1⟩, ⟨1, 1, 1⟩]).queueFamilies,
      q.offersGraphics = true ∧ q.offersPresent = true) ∧
    (findQueueFamilies (exampleDevice 1 2 4096 [⟨1, 1, 0⟩, ⟨0, 1, 1⟩, ⟨1, 1, 1⟩])).graphicsFamily
      ≠ (findQueueFamilies
          (exampleDevice 1 2 4096 [⟨1, 1, 0⟩, ⟨0, 1, 1⟩, ⟨1, 1, 1⟩])).presentFamily := by
  refine ⟨by decide, by decide, ⟨⟨1, 1, 1⟩, by decide, by decide, by decide⟩, by decide⟩

/-- Counterexample to C15: on the families graphics-only, graphics+present the
first family that offers graphics is at index 0, but findQueueFamilies records
graphics index 1 (and present index 1): the entry of index 0 is overwritten. -/
theorem findQueueFamilies_first_index_counterexample :
    firstIndexWhere QueueFamily.offersGraphics
      (exampleDevice 1 2 4096 [⟨1, 1, 0⟩, ⟨1, 1, 1⟩]).queueFamilies = 0 ∧
    findQueueFamilies (exampleDevice 1 2 4096 [⟨1, 1, 0⟩, ⟨1, 1, 1⟩]) =
      { graphicsFamily := 1, presentFamily := 1 } ∧
    (findQueueFamilies (exampleDevice 1 2 4096 [⟨1, 1, 0⟩, ⟨1, 1, 1⟩])).graphicsFamily ≠
      firstIndexWhere QueueFamily.offersGraphics
        (exampleDevice 1 2 4096 [⟨1, 1, 0⟩, ⟨1, 1, 1⟩]).queueFamilies := by
  refine ⟨by decide, by decide, by decide⟩
theorem scannedFamilies_minimal (l : List QueueFamily) (g p : Bool) (hgp : (g && p) = false)
    (S1 : List QueueFamily) (h1 : S1 <+: scannedFamilies l g p)
    (h2 : S1 ≠ scannedFamilies l g p) :
    ((g || S1.any QueueFamily.offersGraphics) && (p || S1.any QueueFamily.offersPresent))
      = false := by
  induction l generalizing g p S1 with
  | nil =>
    simp only [scannedFamilies] at h1 h2
    exact absurd (List.prefix_nil.mp h1) h2
  | cons a l ih =>
    cases S1 with
    | nil => simpa using hgp
    | cons b S2 =>
      rw [scannedFamilies] at h1 h2
      by_cases hc : ((g || a.offersGraphics) && (p || a.offersPresent)) = true
      · rw [if_pos hc] at h1 h2
        have hlen := h1.length_le
        simp only [List.length_cons, List.length_nil] at hlen
        have hS2 : S2 = [] := List.length_eq_zero.mp (by omega)
        subst hS2
        have hb : b = a := by
          obtain ⟨t, ht⟩ := h1
          simp at ht
          exact ht.1
        subst hb
        exact absurd rfl h2
      · rw [if_neg hc] at h1 h2
        obtain ⟨hb, hpre⟩ := List.cons_prefix_cons.mp h1
        subst hb
        have hne : S2 ≠ scannedFamilies l (g || b.offersGraphics) (p || b.offersPresent) :=
          fun e => h2 (by rw [e])
        have := ih _ _ (by simpa using hc) S2 hpre hne
        simpa [List.any_cons, Bool.or_assoc] using this

theorem scannedFamilies_complete_or_all (l : List QueueFamily) (g p : Bool) :
    ((g || (scannedFamilies l g p).any QueueFamily.offersGraphics) &&
      (p || (scannedFamilies l g p).any QueueFamily.offersPresent)) = true ∨
    scannedFamilies l g p = l := by
  induction l generalizing g p with
  | nil => right; rfl
  | cons a l ih =>
    rw [scannedFamilies]
    by_cases hc : ((g || a.offersGraphics) && (p || a.offersPresent)) = true
    · rw [if_pos hc]
      left
      simpa using hc
    · rw [if_neg hc]
      rcases ih (g || a.offersGraphics) (p || a.offersPresent) with h | h
      · left
        simpa [List.any_cons, Bool.or_assoc] using h
      · right
        rw [h]

/-- C15 (amended): findQueueFamilies records as the graphics family the last
(largest) index that offers graphics among the families it scans, and,
independently, as the present family the last index that supports presentation
among them (-1 when no scanned family qualifies).  The scanned families are the
prefix S of the list that ends at the first family where both kinds have been
seen: no shorter prefix contains both kinds, and S is the whole list unless S
contains both. -/
theorem findQueueFamilies_records_last_scanned (device : PhysicalDevice) :
    ∃ S : List QueueFamily, S <+: device.queueFamilies ∧
      (∀ S1 : List QueueFamily, S1 <+: S → S1 ≠ S →
        (S1.any QueueFamily.offersGraphics && S1.any QueueFamily.offersPresent) = false) ∧
      ((S.any QueueFamily.offersGraphics && S.any QueueFamily.offersPresent) = true ∨
        S = device.queueFamilies) ∧
      findQueueFamilies device =
        { graphicsFamily := lastIndexWhere QueueFamily.offersGraphics S,
          presentFamily := lastIndexWhere QueueFamily.offersPresent S } := by
  refine ⟨scannedFamilies device.queueFamilies false false,
    scannedFamilies_prefix _ _ _, ?_, ?_, findQueueFamilies_eq device⟩
  · intro S1 h1 h2
    simpa using scannedFamilies_minimal device.queueFamilies false false rfl S1 h1 h2
  · simpa using scannedFamilies_complete_or_all device.queueFamilies false false

/-! ## Sign of the score -/

theorem rateDeviceSuitability_fst_of_passes (app : HelloVkTriangleApplication)
    (device : PhysicalDevice) (hpass : passesRejectionChecks app device) :
    (rateDeviceSuitability app device).1 =
      toInt32 (((discreteBonus device).toNat + device.maxImageDimension2D) % 2 ^ 32) := by
  obtain ⟨hg, hq, he, hf, hp⟩ := hpass
  have he1 : requiredExtensionsLoop app.m_requiredDeviceExtensions device.extensions = true :=
    (requiredExtensionsLoop_eq_true_iff _ _).mpr he
  unfold rateDeviceSuitability discreteBonus
  simp only [hg, hq, he1, if_false, Bool.not_true, Bool.false_eq_true]
  have hf1 : device.formats.isEmpty = false := by
    cases hfe : device.formats with
    | nil => exact absurd hfe hf
    | cons a l => rfl
  have hp1 : device.presentModes.isEmpty = false := by
    cases hpe : device.presentModes with
    | nil => exact absurd hpe hp
    | cons a l => rfl
  simp only [hf1, hp1, Bool.or_false, Bool.false_eq_true, if_false]
  by_cases hd : device.deviceType = VK_PHYSICAL_DEVICE_TYPE_DISCRETE_GPU
  · simp only [hd, if_true]
    rfl
  · simp only [hd, if_false]

theorem toInt32_pos_iff (n : Nat) :
    0 < toInt32 n ↔ (0 < n % 2 ^ 32 ∧ n % 2 ^ 32 < 2 ^ 31) := by
  unfold toInt32
  have hlt : n % 2 ^ 32 < 2 ^ 32 := Nat.mod_lt _ (by norm_num)
  split_ifs with h
  · constructor
    · intro h0
      exact ⟨by omega, h⟩
    · rintro ⟨h0, _⟩
      omega
  · constructor
    · intro h0
      omega
    · rintro ⟨_, h1⟩
      exact absurd h1 h

/-- Counterexample to C11: an integrated GPU that reports maxImageDimension2D = 0
passes every rejection check of the freshly constructed application, and its
score is 0, not positive. -/
theorem rateDeviceSuitability_positive_counterexample :
    passesRejectionChecks HelloVkTriangleApplication.create
      (exampleDevice 1 1 0 [⟨1, 1, 1⟩]) ∧
    (rateDeviceSuitability HelloVkTriangleApplication.create
      (exampleDevice 1 1 0 [⟨1, 1, 1⟩])).1 = 0 ∧
    ¬ (0 < (rateDeviceSuitability HelloVkTriangleApplication.create
      (exampleDevice 1 1 0 [⟨1, 1, 1⟩])).1) := by
  refine ⟨⟨by decide, by decide, ?_, by simp [exampleDevice], by simp [exampleDevice]⟩,
    by decide, by decide⟩
  simp [HelloVkTriangleApplication.create, VK_KHR_SWAPCHAIN_EXTENSION_NAME, exampleDevice]

/-- C11 (amended): for a candidate that passes all rejection checks, the score
of rateDeviceSuitability is positive exactly when the sum bonus +
maxImageDimension2D, taken modulo 2^32, lies between 1 and 2^31 - 1; in
particular it is positive whenever 1 <= bonus + maxImageDimension2D < 2^31
(bonus is 100 for a discrete GPU and 0 otherwise). -/
theorem rateDeviceSuitability_positive (app : HelloVkTriangleApplication)
    (device : PhysicalDevice) (hpass : passesRejectionChecks app device) :
    (0 < (rateDeviceSuitability app device).1 ↔
      (0 < ((discreteBonus device).toNat + device.maxImageDimension2D) % 2 ^ 32 ∧
        ((discreteBonus device).toNat + device.maxImageDimension2D) % 2 ^ 32 < 2 ^ 31)) ∧
    (0 < (discreteBonus device).toNat + device.maxImageDimension2D →
      (discreteBonus device).toNat + device.maxImageDimension2D < 2 ^ 31 →
      0 < (rateDeviceSuitability app device).1) := by
  rw [rateDeviceSuitability_fst_of_passes app device hpass, toInt32_pos_iff]
  have hmm : ∀ n : Nat, n % 2 ^ 32 % 2 ^ 32 = n % 2 ^ 32 := fun n => Nat.mod_mod _ _
  rw [hmm]
  refine ⟨Iff.rfl, fun h0 h1 => ?_⟩
  rw [Nat.mod_eq_of_lt (by omega)]
  exact ⟨h0, h1⟩

/-- Witness of C11 (amended): a discrete GPU with maxImageDimension2D = 16384
passes the checks and has a positive score. -/
theorem rateDeviceSuitability_positive_witness :
    0 < (rateDeviceSuitability HelloVkTriangleApplication.create
      (exampleDevice 1 2 16384 [⟨1, 1, 1⟩])).1 :=
  (rateDeviceSuitability_positive HelloVkTriangleApplication.create
    (exampleDevice 1 2 16384 [⟨1, 1, 1⟩])
    ⟨by decide, by decide,
     by simp [HelloVkTriangleApplication.create, VK_KHR_SWAPCHAIN_EXTENSION_NAME, exampleDevice],
     by simp [exampleDevice], by simp [exampleDevice]⟩).2 (by decide) (by decide)

/-! ## Lemmas on pickPhysicalDevice -/

theorem rateDeviceSuitability_snd_required (app : HelloVkTriangleApplication)
    (device : PhysicalDevice) :
    (rateDeviceSuitability app device).2.m_requiredDeviceExtensions =
      app.m_requiredDeviceExtensions := by
  unfold rateDeviceSuitability
  simp only []
  split_ifs <;> rfl

theorem rateDeviceSuitability_snd_physicalDevice (app : HelloVkTriangleApplication)
    (device : PhysicalDevice) :
    (rateDeviceSuitability app device).2.m_physicalDevice = app.m_physicalDevice := by
  unfold rateDeviceSuitability
  simp only []
  split_ifs <;> rfl

theorem rateDeviceSuitability_snd_indices (app : HelloVkTriangleApplication)
    (device : PhysicalDevice) :
    (rateDeviceSuitability app device).2.m_queueFamilyIndices =
      if device.geometryShader = 0 then app.m_queueFamilyIndices
      else findQueueFamilies device := by
  unfold rateDeviceSuitability
  simp only []
  split_ifs <;> rfl

theorem rateDeviceSuitability_fst_congr (app app1 : HelloVkTriangleApplication)
    (device : PhysicalDevice)
    (h : app1.m_requiredDeviceExtensions = app.m_requiredDeviceExtensions) :
    (rateDeviceSuitability app1 device).1 = (rateDeviceSuitability app device).1 := by
  unfold rateDeviceSuitability
  simp only [h]
  split_ifs <;> rfl

theorem passes_of_rateDeviceSuitability_ne_zero (app : HelloVkTriangleApplication)
    (device : PhysicalDevice) (h : (rateDeviceSuitability app device).1 ≠ 0) :
    passesRejectionChecks app device := by
  unfold rateDeviceSuitability at h
  simp only at h
  by_cases h1 : device.geometryShader = 0
  · rw [if_pos h1] at h; exact absurd rfl h
  rw [if_neg h1] at h
  by_cases h2 : (!(findQueueFamilies device).isComplete) = true
  · rw [if_pos h2] at h; exact absurd rfl h
  rw [if_neg h2] at h
  by_cases h3 :
      (!requiredExtensionsLoop app.m_requiredDeviceExtensions device.extensions) = true
  · rw [if_pos h3] at h; exact absurd rfl h
  rw [if_neg h3] at h
  by_cases h4 : (device.formats.isEmpty || device.presentModes.isEmpty) = true
  · rw [if_pos h4] at h; exact absurd rfl h
  refine ⟨h1, by simpa using h2, ?_, ?_, ?_⟩
  · exact (requiredExtensionsLoop_eq_true_iff _ _).mp (by simpa using h3)
  · intro hf; simp [hf] at h4
  · intro hp; simp [hp] at h4

theorem mem_multimapInsert (x entry : Int × PhysicalDevice) (C : List (Int × PhysicalDevice)) :
    x ∈ multimapInsert entry C ↔ x = entry ∨ x ∈ C := by
  induction C with
  | nil => simp [multimapInsert]
  | cons e rest ih =>
    rw [multimapInsert]
    split_ifs
    · simp
    · simp only [List.mem_cons, ih]
      tauto

theorem multimapInsert_sorted (entry : Int × PhysicalDevice) (C : List (Int × PhysicalDevice))
    (h : C.Pairwise (fun a b => a.1 ≤ b.1)) :
    (multimapInsert entry C).Pairwise (fun a b => a.1 ≤ b.1) := by
  induction C with
  | nil => simp [multimapInsert]
  | cons e rest ih =>
    rw [multimapInsert]
    rw [List.pairwise_cons] at h
    split_ifs with hlt
    · rw [List.pairwise_cons]
      refine ⟨?_, List.pairwise_cons.mpr h⟩
      intro b hb
      rcases List.mem_cons.mp hb with hb | hb
      · rw [hb]; omega
      · have := h.1 b hb; omega
    · rw [List.pairwise_cons]
      refine ⟨?_, ih h.2⟩
      intro b hb
      rcases (mem_multimapInsert b entry rest).mp hb with hb | hb
      · rw [hb]; omega
      · exact h.1 b hb

theorem le_getLast_of_sorted (C : List (Int × PhysicalDevice)) (l : Int × PhysicalDevice)
    (h : C.Pairwise (fun a b => a.1 ≤ b.1)) (hl : C.getLast? = some l) :
    l ∈ C ∧ ∀ x ∈ C, x.1 ≤ l.1 := by
  obtain ⟨ys, rfl⟩ := List.getLast?_eq_some_iff.mp hl
  refine ⟨by simp, ?_⟩
  intro x hx
  rw [List.pairwise_append] at h
  rcases List.mem_append.mp hx with hx | hx
  · exact h.2.2 x hx l (by simp)
  · have : x = l := by simpa using hx
    rw [this]

theorem pickPhysicalDeviceLoop_spec (devices : List PhysicalDevice)
    (app : HelloVkTriangleApplication) (C : List (Int × PhysicalDevice)) :
    (pickPhysicalDeviceLoop devices app C).1.m_requiredDeviceExtensions =
      app.m_requiredDeviceExtensions ∧
    (pickPhysicalDeviceLoop devices app C).1.m_physicalDevice = app.m_physicalDevice ∧
    (∀ x, x ∈ (pickPhysicalDeviceLoop devices app C).2 ↔
      (x ∈ C ∨ ∃ d ∈ devices, x = ((rateDeviceSuitability app d).1, d))) ∧
    (C.Pairwise (fun a b => a.1 ≤ b.1) →
      (pickPhysicalDeviceLoop devices app C).2.Pairwise (fun a b => a.1 ≤ b.1)) := by
  induction devices generalizing app C with
  | nil => simp [pickPhysicalDeviceLoop]
  | cons d rest ih =>
    rw [pickPhysicalDeviceLoop]
    obtain ⟨h1, h2, h3, h4⟩ := ih (rateDeviceSuitability app d).2
      (multimapInsert ((rateDeviceSuitability app d).1, d) C)
    have hreq := rateDeviceSuitability_snd_required app d
    refine ⟨by rw [h1, hreq], by rw [h2, rateDeviceSuitability_snd_physicalDevice], ?_, ?_⟩
    · intro x
      rw [h3, mem_multimapInsert]
      have hcongr : ∀ d1, (rateDeviceSuitability (rateDeviceSuitability app d).2 d1).1 =
          (rateDeviceSuitability app d1).1 :=
        fun d1 => rateDeviceSuitability_fst_congr app _ d1 hreq
      simp only [hcongr, List.mem_cons, exists_eq_or_imp]
      tauto
    · intro hC
      exact h4 (multimapInsert_sorted _ _ hC)

theorem pickPhysicalDeviceLoop_best (devices : List PhysicalDevice)
    (app : HelloVkTriangleApplication) (hne : devices ≠ []) :
    ∃ best ∈ devices, (∀ d ∈ devices,
        (rateDeviceSuitability app d).1 ≤ (rateDeviceSuitability app best).1) ∧
      (pickPhysicalDeviceLoop devices app []).2.getLast? =
        some ((rateDeviceSuitability app best).1, best) := by
  obtain ⟨_, _, h3, h4⟩ := pickPhysicalDeviceLoop_spec devices app []
  have hsorted := h4 List.Pairwise.nil
  cases hl : (pickPhysicalDeviceLoop devices app []).2.getLast? with
  | none =>
    exfalso
    rw [List.getLast?_eq_none_iff] at hl
    obtain ⟨d, hd⟩ := List.exists_mem_of_ne_nil devices hne
    have := (h3 ((rateDeviceSuitability app d).1, d)).mpr (Or.inr ⟨d, hd, rfl⟩)
    rw [hl] at this
    simp at this
  | some l =>
    obtain ⟨hmem, hle⟩ := le_getLast_of_sorted _ l hsorted hl
    rcases (h3 l).mp hmem with h | ⟨best, hbest, hlb⟩
    · simp at h
    · refine ⟨best, hbest, ?_, by rw [hlb]⟩
      intro d hd
      have := hle _ ((h3 ((rateDeviceSuitability app d).1, d)).mpr (Or.inr ⟨d, hd, rfl⟩))
      rw [hlb] at this
      exact this

/-- What `pickPhysicalDevice` does on a non-empty device list: some device of
the list whose score no other device exceeds is the last entry of the multimap;
its handle is stored when its score is positive, and the call succeeds exactly
when the stored handle is not `VK_NULL_HANDLE` afterwards. -/
theorem pickPhysicalDevice_spec (devices : List PhysicalDevice)
    (app : HelloVkTriangleApplication) (hne : devices ≠ []) :
    ∃ best ∈ devices, (∀ d ∈ devices,
        (rateDeviceSuitability app d).1 ≤ (rateDeviceSuitability app best).1) ∧
      (pickPhysicalDevice app devices).2.m_physicalDevice =
        (if 0 < (rateDeviceSuitability app best).1 then best.handle else app.m_physicalDevice) ∧
      (pickPhysicalDevice app devices).1 =
        decide ((pickPhysicalDevice app devices).2.m_physicalDevice ≠ VK_NULL_HANDLE) ∧
      (pickPhysicalDevice app devices).2.m_queueFamilyIndices =
        (pickPhysicalDeviceLoop devices app []).1.m_queueFamilyIndices ∧
      (pickPhysicalDevice app devices).2.m_requiredDeviceExtensions =
        app.m_requiredDeviceExtensions := by
  obtain ⟨best, hbest, hmax, hlast⟩ := pickPhysicalDeviceLoop_best devices app hne
  obtain ⟨h1, h2, _, _⟩ := pickPhysicalDeviceLoop_spec devices app []
  have hlen : ¬ devices.length = 0 := fun h => hne (List.length_eq_zero.mp h)
  refine ⟨best, hbest, hmax, ?_⟩
  unfold pickPhysicalDevice
  rw [if_neg hlen]
  simp only [hlast]
  by_cases hpos : 0 < (rateDeviceSuitability app best).1
  · simp only [gt_iff_lt, hpos, if_true]
    split_ifs with hnull <;> simp [hnull, h1]
  · simp only [gt_iff_lt, hpos, if_false]
    split_ifs with hnull <;> rw [h2] at hnull <;> simp [hnull, h1, h2]

/-! ## Claims on pickPhysicalDevice -/

/-- C12: when every candidate of the device list scores 0 (the empty list
included) and no device is selected before the call, pickPhysicalDevice returns
failure and the stored device stays VK_NULL_HANDLE. -/
theorem pickPhysicalDevice_all_zero (app : HelloVkTriangleApplication)
    (devices : List PhysicalDevice)
    (hnull : app.m_physicalDevice = VK_NULL_HANDLE)
    (hzero : ∀ d ∈ devices, (rateDeviceSuitability app d).1 = 0) :
    (pickPhysicalDevice app devices).1 = false ∧
    (pickPhysicalDevice app devices).2.m_physicalDevice = VK_NULL_HANDLE := by
  by_cases hne : devices = []
  · subst hne
    exact ⟨rfl, hnull⟩
  · obtain ⟨best, hbest, _, hphys, hflag, _, _⟩ := pickPhysicalDevice_spec devices app hne
    have hnot : ¬ 0 < (rateDeviceSuitability app best).1 := by
      rw [hzero best hbest]; decide
    rw [if_neg hnot, hnull] at hphys
    refine ⟨?_, hphys⟩
    rw [hflag, hphys]
    simp

/-- Witness of C12: the freshly constructed application on the empty list and
on a list of two devices that score 0 (one reports maxImageDimension2D = 0, the
other has no present-capable queue family). -/
theorem pickPhysicalDevice_all_zero_witness :
    ((pickPhysicalDevice HelloVkTriangleApplication.create []).1 = false ∧
      (pickPhysicalDevice HelloVkTriangleApplication.create []).2.m_physicalDevice
        = VK_NULL_HANDLE) ∧
    ((pickPhysicalDevice HelloVkTriangleApplication.create
        [exampleDevice 1 1 0 [⟨1, 1, 1⟩], exampleDevice 2 2 4096 [⟨1, 1, 0⟩]]).1 = false ∧
      (pickPhysicalDevice HelloVkTriangleApplication.create
        [exampleDevice 1 1 0 [⟨1, 1, 1⟩],
          exampleDevice 2 2 4096 [⟨1, 1, 0⟩]]).2.m_physicalDevice = VK_NULL_HANDLE) :=
  ⟨pickPhysicalDevice_all_zero HelloVkTriangleApplication.create [] rfl (by simp),
   pickPhysicalDevice_all_zero HelloVkTriangleApplication.create
     [exampleDevice 1 1 0 [⟨1, 1, 1⟩], exampleDevice 2 2 4096 [⟨1, 1, 0⟩]] rfl (by decide)⟩

/-- C13: when one candidate of the device list has a positive score that is
strictly greater than the score of every other candidate, pickPhysicalDevice
succeeds on every permutation of the list and selects that candidate (its
handle is stored), whatever its position.  Handles of enumerated devices are
never VK_NULL_HANDLE. -/
theorem pickPhysicalDevice_unique_best (app : HelloVkTriangleApplication)
    (devices : List PhysicalDevice) (best : PhysicalDevice)
    (hmem : best ∈ devices) (hhandle : best.handle ≠ VK_NULL_HANDLE)
    (hpos : 0 < (rateDeviceSuitability app best).1)
    (hbest : ∀ d ∈ devices, d ≠ best →
      (rateDeviceSuitability app d).1 < (rateDeviceSuitability app best).1)
    (permuted : List PhysicalDevice) (hperm : permuted.Perm devices) :
    (pickPhysicalDevice app permuted).1 = true ∧
    (pickPhysicalDevice app permuted).2.m_physicalDevice = best.handle := by
  have hmem1 : best ∈ permuted := hperm.mem_iff.mpr hmem
  have hne : permuted ≠ [] := List.ne_nil_of_mem hmem1
  obtain ⟨top, htop, hmax, hphys, hflag, _, _⟩ := pickPhysicalDevice_spec permuted app hne
  have htb : top = best := by
    by_contra hne1
    have h1 := hbest top (hperm.mem_iff.mp htop) hne1
    have h2 := hmax best hmem1
    omega
  subst htb
  rw [if_pos hpos] at hphys
  refine ⟨?_, hphys⟩
  rw [hflag, hphys]
  simpa using hhandle

/-- Witness of C13: a discrete GPU (score 4196) among an integrated GPU (score
4096) and a device that scores 0 is selected in two different orders. -/
theorem pickPhysicalDevice_unique_best_witness :
    ((pickPhysicalDevice HelloVkTriangleApplication.create
        [exampleDevice 3 2 4096 [⟨1, 1, 1⟩], exampleDevice 2 2 4096 [⟨1, 1, 0⟩],
          exampleDevice 1 1 4096 [⟨1, 1, 1⟩]]).1 = true ∧
      (pickPhysicalDevice HelloVkTriangleApplication.create
        [exampleDevice 3 2 4096 [⟨1, 1, 1⟩], exampleDevice 2 2 4096 [⟨1, 1, 0⟩],
          exampleDevice 1 1 4096 [⟨1, 1, 1⟩]]).2.m_physicalDevice =
        (exampleDevice 3 2 4096 [⟨1, 1, 1⟩]).handle) :=
  pickPhysicalDevice_unique_best HelloVkTriangleApplication.create
    [exampleDevice 1 1 4096 [⟨1, 1, 1⟩], exampleDevice 2 2 4096 [⟨1, 1, 0⟩],
      exampleDevice 3 2 4096 [⟨1, 1, 1⟩]]
    (exampleDevice 3 2 4096 [⟨1, 1, 1⟩]) (by decide) (by decide) (by decide) (by decide)
    [exampleDevice 3 2 4096 [⟨1, 1, 1⟩], exampleDevice 2 2 4096 [⟨1, 1, 0⟩],
      exampleDevice 1 1 4096 [⟨1, 1, 1⟩]] (by decide)

/-- C14: if pickPhysicalDevice succeeds, starting with no device selected, then
the stored handle is the handle of a device of the list that passes every
rejection check: it has the geometry shader, findQueueFamilies on it is
complete, every required device extension (the swapchain extension) is among
its extensions, and it reports at least one surface format and at least one
present mode.  When the handles of the list are pairwise different, this holds
for the device of the list with the stored handle. -/
theorem pickPhysicalDevice_selected_suitable (app : HelloVkTriangleApplication)
    (devices : List PhysicalDevice)
    (hnull : app.m_physicalDevice = VK_NULL_HANDLE)
    (hok : (pickPhysicalDevice app devices).1 = true) :
    (∃ d ∈ devices, d.handle = (pickPhysicalDevice app devices).2.m_physicalDevice ∧
      passesRejectionChecks app d) ∧
    ((devices.map PhysicalDevice.handle).Nodup →
      ∀ d ∈ devices, d.handle = (pickPhysicalDevice app devices).2.m_physicalDevice →
        passesRejectionChecks app d) := by
  have hne : devices ≠ [] := by
    intro h
    subst h
    simp [pickPhysicalDevice] at hok
  obtain ⟨best, hbest, _, hphys, hflag, _, _⟩ := pickPhysicalDevice_spec devices app hne
  have hpos : 0 < (rateDeviceSuitability app best).1 := by
    by_contra hnot
    rw [if_neg hnot, hnull] at hphys
    rw [hflag, hphys] at hok
    simp at hok
  rw [if_pos hpos] at hphys
  have hpass : passesRejectionChecks app best :=
    passes_of_rateDeviceSuitability_ne_zero app best (by omega)
  refine ⟨⟨best, hbest, hphys.symm, hpass⟩, ?_⟩
  intro hnodup d hd hdh
  have : d = best :=
    List.inj_on_of_nodup_map hnodup hd hbest (by rw [hdh, hphys])
  rw [this]
  exact hpass

/-- Witness of C14 on a list of a suitable discrete GPU and a device without a
present-capable queue family. -/
theorem pickPhysicalDevice_selected_suitable_witness :
    (∃ d ∈ [exampleDevice 1 2 4096 [⟨1, 1, 1⟩], exampleDevice 2 2 4096 [⟨1, 1, 0⟩]],
      d.handle = (pickPhysicalDevice HelloVkTriangleApplication.create
        [exampleDevice 1 2 4096 [⟨1, 1, 1⟩],
          exampleDevice 2 2 4096 [⟨1, 1, 0⟩]]).2.m_physicalDevice ∧
      passesRejectionChecks HelloVkTriangleApplication.create d) :=
  (pickPhysicalDevice_selected_suitable HelloVkTriangleApplication.create
    [exampleDevice 1 2 4096 [⟨1, 1, 1⟩], exampleDevice 2 2 4096 [⟨1, 1, 0⟩]] rfl
    (by decide)).1

/-! ## The queue-family selection stored by pickPhysicalDevice -/

/-- After the loop of `pickPhysicalDevice`, `m_queueFamilyIndices` holds the
queue families of the last device of the list that has the geometry shader
(every such device overwrites it when it is rated), and its previous value when
no device of the list has the geometry shader. -/
theorem pickPhysicalDeviceLoop_indices (devices : List PhysicalDevice)
    (app : HelloVkTriangleApplication) (C : List (Int × PhysicalDevice)) :
    (pickPhysicalDeviceLoop devices app C).1.m_queueFamilyIndices =
      match devices.reverse.find? (fun d => decide (d.geometryShader ≠ 0)) with
      | some d => findQueueFamilies d
      | none => app.m_queueFamilyIndices := by
  induction devices generalizing app C with
  | nil => rfl
  | cons d rest ih =>
    rw [pickPhysicalDeviceLoop, ih, List.reverse_cons, List.find?_append]
    cases hrest : rest.reverse.find? (fun d => decide (d.geometryShader ≠ 0)) with
    | some d1 => rfl
    | none =>
      rw [rateDeviceSuitability_snd_indices]
      by_cases hg : d.geometryShader = 0
      · simp [hg]
      · simp [hg]

/-- C20 fails: on the list of a suitable discrete GPU (handle 1) followed by a
device that has the geometry shader but no present-capable queue family (handle
2), pickPhysicalDevice succeeds and selects handle 1, but the stored
m_queueFamilyIndices is the incomplete selection (0, -1) of the device with
handle 2, not the selection (0, 0) of the selected device.  On a list of two
suitable devices the stored selection is complete but is the one of the device
rated last, (1, 1), while the selected device has (0, 0). -/
theorem pickPhysicalDevice_stale_queueFamilyIndices :
    ((pickPhysicalDevice HelloVkTriangleApplication.create
        [exampleDevice 1 2 4096 [⟨1, 1, 1⟩], exampleDevice 2 1 4096 [⟨1, 1, 0⟩]]).1 = true ∧
      (pickPhysicalDevice HelloVkTriangleApplication.create
        [exampleDevice 1 2 4096 [⟨1, 1, 1⟩],
          exampleDevice 2 1 4096 [⟨1, 1, 0⟩]]).2.m_physicalDevice = 1 ∧
      (pickPhysicalDevice HelloVkTriangleApplication.create
        [exampleDevice 1 2 4096 [⟨1, 1, 1⟩],
          exampleDevice 2 1 4096 [⟨1, 1, 0⟩]]).2.m_queueFamilyIndices =
        { graphicsFamily := 0, presentFamily := -1 } ∧
      findQueueFamilies (exampleDevice 1 2 4096 [⟨1, 1, 1⟩]) =
        { graphicsFamily := 0, presentFamily := 0 } ∧
      (pickPhysicalDevice HelloVkTriangleApplication.create
        [exampleDevice 1 2 4096 [⟨1, 1, 1⟩],
          exampleDevice 2 1 4096 [⟨1, 1, 0⟩]]).2.m_queueFamilyIndices.isComplete = false) ∧
    ((pickPhysicalDevice HelloVkTriangleApplication.create
        [exampleDevice 1 2 4096 [⟨1, 1, 1⟩],
          exampleDevice 2 1 4096 [⟨1, 1, 0⟩, ⟨1, 1, 1⟩]]).1 = true ∧
      (pickPhysicalDevice HelloVkTriangleApplication.create
        [exampleDevice 1 2 4096 [⟨1, 1, 1⟩],
          exampleDevice 2 1 4096 [⟨1, 1, 0⟩, ⟨1, 1, 1⟩]]).2.m_physicalDevice = 1 ∧
      (pickPhysicalDevice HelloVkTriangleApplication.create
        [exampleDevice 1 2 4096 [⟨1, 1, 1⟩],
          exampleDevice 2 1 4096 [⟨1, 1, 0⟩, ⟨1, 1, 1⟩]]).2.m_queueFamilyIndices =
        { graphicsFamily := 1, presentFamily := 1 }) := by
  refine ⟨⟨by decide, by decide, by decide, by decide, by decide⟩,
    ⟨by decide, by decide, by decide⟩⟩

/-! ## Propagation of startup failures -/

theorem createSwapChain_false_of_selection_failure (device : PhysicalDevice)
    (windowWidth windowHeight : Nat) (vkCreateSwapchainSucceeds : Bool)
    (h : (chooseSwapPresentMode device.presentModes 0).1 = false ∨
      (chooseSwapChainSurfaceFormat device.formats ⟨0, 0⟩).1 = false) :
    createSwapChain device windowWidth windowHeight vkCreateSwapchainSucceeds = false := by
  unfold createSwapChain
  rcases h with h | h
  · simp [h]
  · simp [h]

theorem initVulkan_false_of_pickPhysicalDevice_failure (env : Startup)
    (app : HelloVkTriangleApplication)
    (h : (pickPhysicalDevice app env.devices).1 = false) :
    (initVulkan env app).returned = false := by
  unfold initVulkan
  split_ifs <;> simp_all

theorem run_calls_mainLoop (env : Startup) (app : HelloVkTriangleApplication) :
    RunStep.mainLoop ∈ run env app ∧ (main env).2 = EXIT_SUCCESS := by
  simp [run, main]

/-- C16 fails: with no device enumerated, pickPhysicalDevice fails and
initVulkan returns false, but run discards that flag, calls mainLoop all the
same, and main returns EXIT_SUCCESS.  With one suitable device whose only
present mode is none of MAILBOX, IMMEDIATE and FIFO, chooseSwapPresentMode
fails and createSwapChain returns false, but initVulkan discards that flag and
returns true, and run calls mainLoop. -/
theorem run_ignores_startup_failure :
    ((pickPhysicalDevice HelloVkTriangleApplication.create []).1 = false ∧
      (initVulkan ⟨false, true, true, [], true⟩
        HelloVkTriangleApplication.create).returned = false ∧
      run ⟨false, true, true, [], true⟩ HelloVkTriangleApplication.create =
        [RunStep.initWindow, RunStep.initVulkan false, RunStep.mainLoop, RunStep.cleanup] ∧
      (main ⟨false, true, true, [], true⟩).2 = EXIT_SUCCESS) ∧
    ((chooseSwapPresentMode [3] 0).1 = false ∧
      createSwapChain { exampleDevice 1 2 4096 [⟨1, 1, 1⟩] with presentModes := [3] } 480 270
        true = false ∧
      (initVulkan ⟨false, true, true,
          [{ exampleDevice 1 2 4096 [⟨1, 1, 1⟩] with presentModes := [3] }], true⟩
        HelloVkTriangleApplication.create).createSwapChainReturned = some false ∧
      (initVulkan ⟨false, true, true,
          [{ exampleDevice 1 2 4096 [⟨1, 1, 1⟩] with presentModes := [3] }], true⟩
        HelloVkTriangleApplication.create).returned = true ∧
      run ⟨false, true, true,
          [{ exampleDevice 1 2 4096 [⟨1, 1, 1⟩] with presentModes := [3] }], true⟩
        HelloVkTriangleApplication.create =
        [RunStep.initWindow, RunStep.initVulkan true, RunStep.mainLoop, RunStep.cleanup]) := by
  refine ⟨⟨by decide, by decide, by decide, by decide⟩,
    ⟨by decide, by decide, by decide, by decide, by decide⟩⟩

/-! ## Completeness and the stopping point of the queue-family scan -/

theorem lastIndexWhere_nonneg_iff (p : QueueFamily → Bool) (l : List QueueFamily) :
    0 ≤ lastIndexWhere p l ↔ l.any p = true := by
  rcases lastIndexWhere_spec p l with ⟨h1, h2⟩ | ⟨n, q, h1, h2, h3, _⟩
  · rw [h1]
    constructor
    · intro h; omega
    · intro h
      obtain ⟨q, hq, hpq⟩ := List.any_eq_true.mp h
      rw [h2 q hq] at hpq
      exact absurd hpq (by decide)
  · rw [h1]
    constructor
    · intro _
      exact List.any_eq_true.mpr ⟨q, List.getElem?_mem h2, h3⟩
    · intro _
      exact Int.natCast_nonneg _

theorem scannedFamilies_any_iff (l : List QueueFamily) :
    ((scannedFamilies l false false).any QueueFamily.offersGraphics = true ∧
      (scannedFamilies l false false).any QueueFamily.offersPresent = true) ↔
    (l.any QueueFamily.offersGraphics = true ∧ l.any QueueFamily.offersPresent = true) := by
  have hpre := scannedFamilies_prefix l false false
  constructor
  · rintro ⟨hg, hp⟩
    obtain ⟨q1, hq1, h1⟩ := List.any_eq_true.mp hg
    obtain ⟨q2, hq2, h2⟩ := List.any_eq_true.mp hp
    exact ⟨List.any_eq_true.mpr ⟨q1, hpre.subset hq1, h1⟩,
      List.any_eq_true.mpr ⟨q2, hpre.subset hq2, h2⟩⟩
  · rintro ⟨hg, hp⟩
    rcases scannedFamilies_complete_or_all l false false with h | h
    · simpa using h
    · rw [h]; exact ⟨hg, hp⟩

theorem isComplete_findQueueFamilies_iff (device : PhysicalDevice) :
    (findQueueFamilies device).isComplete = true ↔
      (device.queueFamilies.any QueueFamily.offersGraphics = true ∧
        device.queueFamilies.any QueueFamily.offersPresent = true) := by
  rw [findQueueFamilies_eq, isComplete_eq]
  simp only [Bool.and_eq_true, decide_eq_true_eq, ge_iff_le]
  rw [lastIndexWhere_nonneg_iff, lastIndexWhere_nonneg_iff]
  exact scannedFamilies_any_iff device.queueFamilies

/-- C21: findQueueFamilies returns a complete selection if and only if the
queue-family list contains at least one family with a non-zero queue count and
the graphics bit, and at least one family (possibly the same) with a non-zero
queue count and presentation support for the surface. -/
theorem findQueueFamilies_complete_iff (device : PhysicalDevice) :
    (findQueueFamilies device).isComplete = true ↔
      ((∃ q ∈ device.queueFamilies,
          q.queueCount > 0 ∧ q.queueFlags &&& VK_QUEUE_GRAPHICS_BIT ≠ 0) ∧
        (∃ q ∈ device.queueFamilies, q.queueCount > 0 ∧ q.presentSupport ≠ 0)) := by
  rw [isComplete_findQueueFamilies_iff, List.any_eq_true, List.any_eq_true]
  simp only [QueueFamily.offersGraphics, QueueFamily.offersPresent, decide_eq_true_eq]
theorem scannedFamilies_append (l tail : List QueueFamily) (g p : Bool)
    (hgp : (g && p) = false)
    (hc : ((g || (scannedFamilies l g p).any QueueFamily.offersGraphics) &&
      (p || (scannedFamilies l g p).any QueueFamily.offersPresent)) = true) :
    scannedFamilies (scannedFamilies l g p ++ tail) g p = scannedFamilies l g p := by
  induction l generalizing g p with
  | nil =>
    simp only [scannedFamilies, List.any_nil, Bool.or_false] at hc
    rw [hc] at hgp
    exact absurd hgp (by decide)
  | cons a l ih =>
    rw [scannedFamilies] at hc ⊢
    by_cases hcond : ((g || a.offersGraphics) && (p || a.offersPresent)) = true
    · rw [if_pos hcond]
      show scannedFamilies (a :: tail) g p = [a]
      rw [scannedFamilies, if_pos hcond]
    · rw [if_neg hcond] at hc ⊢
      show scannedFamilies (a :: (scannedFamilies l (g || a.offersGraphics)
        (p || a.offersPresent) ++ tail)) g p = _
      rw [scannedFamilies, if_neg hcond]
      rw [ih _ _ (by simpa using hcond) (by simpa [List.any_cons, Bool.or_assoc] using hc)]

theorem any_take_of_getElem? (p : QueueFamily → Bool) (l : List QueueFamily) (i n : Nat)
    (q : QueueFamily) (h : l[i]? = some q) (hp : p q = true) (hi : i < n) :
    (l.take n).any p = true := by
  refine List.any_eq_true.mpr ⟨q, ?_, hp⟩
  have : (l.take n)[i]? = some q := by rw [List.getElem?_take, if_pos hi, h]
  exact List.getElem?_mem this

theorem findQueueFamiliesLoop_zero_eq (l : List QueueFamily) :
    findQueueFamiliesLoop l 0 {} =
      { graphicsFamily := lastIndexWhere QueueFamily.offersGraphics
          (scannedFamilies l false false),
        presentFamily := lastIndexWhere QueueFamily.offersPresent
          (scannedFamilies l false false) } := by
  have h := findQueueFamiliesLoop_eq l [] {} rfl rfl
  simpa using h

/-- C22: when findQueueFamilies returns a complete selection, there is an index
k, the smallest one such that the families 0..k contain both a graphics family
and a present family, at which the scan stops (the families behind k do not
influence the result); the graphics index g is the largest index <= k that
offers graphics and the present index p is the largest index <= k that
supports presentation; at least one of g and p equals k, and if family k offers
both then the result is (k, k). -/
theorem findQueueFamilies_stops_at_first_complete (device : PhysicalDevice)
    (hc : (findQueueFamilies device).isComplete = true) :
    ∃ k g p : Nat,
      k < device.queueFamilies.length ∧
      ((device.queueFamilies.take (k + 1)).any QueueFamily.offersGraphics = true ∧
        (device.queueFamilies.take (k + 1)).any QueueFamily.offersPresent = true) ∧
      (∀ k1 : Nat, k1 < k →
        ((device.queueFamilies.take (k1 + 1)).any QueueFamily.offersGraphics &&
          (device.queueFamilies.take (k1 + 1)).any QueueFamily.offersPresent) = false) ∧
      (∀ tail : List QueueFamily,
        findQueueFamiliesLoop (device.queueFamilies.take (k + 1) ++ tail) 0 {} =
          findQueueFamilies device) ∧
      findQueueFamilies device = { graphicsFamily := (g : Int), presentFamily := (p : Int) } ∧
      g ≤ k ∧
      (∃ q, device.queueFamilies[g]? = some q ∧ q.offersGraphics = true) ∧
      (∀ (j : Nat) (q : QueueFamily), g < j → j ≤ k → device.queueFamilies[j]? = some q →
        q.offersGraphics = false) ∧
      p ≤ k ∧
      (∃ q, device.queueFamilies[p]? = some q ∧ q.offersPresent = true) ∧
      (∀ (j : Nat) (q : QueueFamily), p < j → j ≤ k → device.queueFamilies[j]? = some q →
        q.offersPresent = false) ∧
      (g = k ∨ p = k) ∧
      (∀ q, device.queueFamilies[k]? = some q → q.offersGraphics = true →
        q.offersPresent = true → g = k ∧ p = k) := by
  have heq := findQueueFamilies_eq device
  have hpre := scannedFamilies_prefix device.queueFamilies false false
  have hmin := scannedFamilies_minimal device.queueFamilies false false rfl
  rw [heq, isComplete_eq] at hc
  simp only [Bool.and_eq_true, decide_eq_true_eq, ge_iff_le] at hc
  generalize hS : scannedFamilies device.queueFamilies false false = S at heq hpre hmin hc
  obtain ⟨hcg, hcp⟩ := hc
  have hanyg := (lastIndexWhere_nonneg_iff _ _).mp hcg
  have hanyp := (lastIndexWhere_nonneg_iff _ _).mp hcp
  rcases lastIndexWhere_spec QueueFamily.offersGraphics S with ⟨h1, _⟩ | ⟨g, qg, hg1, hg2, hg3, hg4⟩
  · omega
  rcases lastIndexWhere_spec QueueFamily.offersPresent S with ⟨h1, _⟩ | ⟨p, qp, hp1, hp2, hp3, hp4⟩
  · omega
  have hglt : g < S.length := (List.getElem?_eq_some.mp hg2).1
  have hplt : p < S.length := (List.getElem?_eq_some.mp hp2).1
  have hlen : S.length ≤ device.queueFamilies.length := hpre.length_le
  have htake : device.queueFamilies.take (S.length - 1 + 1) = S := by
    have : S.length - 1 + 1 = S.length := by omega
    rw [this]
    exact (List.prefix_iff_eq_take.mp hpre).symm
  have hget : ∀ j : Nat, j ≤ S.length - 1 → S[j]? = device.queueFamilies[j]? := by
    intro j hj
    rw [← htake, List.getElem?_take, if_pos (by omega)]
  have hmin1 : ∀ k1 : Nat, k1 < S.length - 1 →
      ((device.queueFamilies.take (k1 + 1)).any QueueFamily.offersGraphics &&
        (device.queueFamilies.take (k1 + 1)).any QueueFamily.offersPresent) = false := by
    intro k1 hk1
    have hp1 : device.queueFamilies.take (k1 + 1) <+: S := by
      rw [← htake]
      exact List.take_prefix_take_left _ (by omega)
    have hne : device.queueFamilies.take (k1 + 1) ≠ S := by
      intro h
      have := congrArg List.length h
      rw [List.length_take] at this
      omega
    simpa using hmin _ hp1 hne
  have hgk : ∀ q, device.queueFamilies[S.length - 1]? = some q → q.offersGraphics = true →
      g = S.length - 1 := by
    intro q hq hqg
    by_contra hne
    have := hg4 (S.length - 1) q (by omega) (by rw [hget _ (le_refl _)]; exact hq)
    rw [this] at hqg
    exact absurd hqg (by decide)
  have hpk : ∀ q, device.queueFamilies[S.length - 1]? = some q → q.offersPresent = true →
      p = S.length - 1 := by
    intro q hq hqp
    by_contra hne
    have := hp4 (S.length - 1) q (by omega) (by rw [hget _ (le_refl _)]; exact hq)
    rw [this] at hqp
    exact absurd hqp (by decide)
  refine ⟨S.length - 1, g, p, by omega, ?_, hmin1, ?_, ?_, by omega, ?_, ?_, by omega,
    ?_, ?_, ?_, ?_⟩
  · rw [htake]; exact ⟨hanyg, hanyp⟩
  · intro tail
    have happ := scannedFamilies_append device.queueFamilies tail false false rfl
      (by rw [hS]; simp [hanyg, hanyp])
    rw [hS] at happ
    rw [htake, findQueueFamiliesLoop_zero_eq, heq, happ]
  · rw [heq, hg1, hp1]
  · exact ⟨qg, by rw [← hget g (by omega)]; exact hg2, hg3⟩
  · intro j q hj hjk hq
    exact hg4 j q hj (by rw [hget j hjk]; exact hq)
  · exact ⟨qp, by rw [← hget p (by omega)]; exact hp2, hp3⟩
  · intro j q hj hjk hq
    exact hp4 j q hj (by rw [hget j hjk]; exact hq)
  · by_contra hne
    have hg5 : g < S.length - 1 := by omega
    have hp5 : p < S.length - 1 := by omega
    have hfalse := hmin1 (max g p) (by omega)
    have hG := any_take_of_getElem? QueueFamily.offersGraphics device.queueFamilies g
      (max g p + 1) qg (by rw [← hget g (by omega)]; exact hg2) hg3 (by omega)
    have hP := any_take_of_getElem? QueueFamily.offersPresent device.queueFamilies p
      (max g p + 1) qp (by rw [← hget p (by omega)]; exact hp2) hp3 (by omega)
    rw [hG, hP] at hfalse
    exact absurd hfalse (by decide)
  · intro q hq hqg hqp
    exact ⟨hgk q hq hqg, hpk q hq hqp⟩

/-- Witness of C22: on the families graphics-only, graphics-only, present-only,
graphics+present the selection is complete, and the scan stops at k = 2 with
graphics index 1 and present index 2. -/
theorem findQueueFamilies_stops_at_first_complete_witness :
    findQueueFamilies
      (exampleDevice 1 2 4096 [⟨1, 1, 0⟩, ⟨1, 1, 0⟩, ⟨0, 1, 1⟩, ⟨1, 1, 1⟩]) =
      { graphicsFamily := 1, presentFamily := 2 } ∧
    ∃ k g p : Nat,
      findQueueFamilies
        (exampleDevice 1 2 4096 [⟨1, 1, 0⟩, ⟨1, 1, 0⟩, ⟨0, 1, 1⟩, ⟨1, 1, 1⟩]) =
        { graphicsFamily := (g : Int), presentFamily := (p : Int) } ∧
      g ≤ k ∧ p ≤ k ∧ (g = k ∨ p = k) := by
  refine ⟨by decide, ?_⟩
  obtain ⟨k, g, p, _, _, _, _, hres, hg, _, _, hp, _, _, hor, _⟩ :=
    findQueueFamilies_stops_at_first_complete
      (exampleDevice 1 2 4096 [⟨1, 1, 0⟩, ⟨1, 1, 0⟩, ⟨0, 1, 1⟩, ⟨1, 1, 1⟩]) (by decide)
  exact ⟨k, g, p, hres, hg, hp, hor⟩

/-! ## Ties in pickPhysicalDevice -/

theorem multimapInsert_of_ge (entry : Int × PhysicalDevice) (C : List (Int × PhysicalDevice))
    (h : ∀ x ∈ C, x.1 ≤ entry.1) : multimapInsert entry C = C ++ [entry] := by
  induction C with
  | nil => rfl
  | cons e rest ih =>
    rw [multimapInsert]
    have he : ¬ entry.1 < e.1 := by
      have := h e (List.mem_cons_self _ _)
      omega
    rw [if_neg he, ih (fun x hx => h x (List.mem_cons_of_mem _ hx))]
    rfl

theorem getLast?_multimapInsert_of_lt (entry l : Int × PhysicalDevice)
    (C : List (Int × PhysicalDevice)) (hl : C.getLast? = some l) (hlt : entry.1 < l.1) :
    (multimapInsert entry C).getLast? = some l := by
  induction C with
  | nil => simp at hl
  | cons e rest ih =>
    rw [multimapInsert]
    by_cases he : entry.1 < e.1
    · rw [if_pos he]
      exact hl
    · rw [if_neg he]
      cases rest with
      | nil =>
        simp only [List.getLast?_singleton, Option.some.injEq] at hl
        rw [hl] at he
        exact absurd hlt he
      | cons b rest1 =>
        have hl1 : (b :: rest1).getLast? = some l := hl
        have := ih hl1
        cases hm : multimapInsert entry (b :: rest1) with
        | nil => rw [hm] at this; simp at this
        | cons c rest2 =>
          rw [hm] at this
          exact this

theorem pickPhysicalDeviceLoop_getLast_of_lt (devices : List PhysicalDevice)
    (app : HelloVkTriangleApplication) (C : List (Int × PhysicalDevice))
    (l : Int × PhysicalDevice) (hl : C.getLast? = some l)
    (hlt : ∀ d ∈ devices, (rateDeviceSuitability app d).1 < l.1) :
    (pickPhysicalDeviceLoop devices app C).2.getLast? = some l := by
  induction devices generalizing app C with
  | nil => exact hl
  | cons d rest ih =>
    rw [pickPhysicalDeviceLoop]
    have hreq := rateDeviceSuitability_snd_required app d
    refine ih _ _ ?_ ?_
    · exact getLast?_multimapInsert_of_lt _ l C hl (hlt d (List.mem_cons_self _ _))
    · intro d1 hd1
      rw [rateDeviceSuitability_fst_congr app _ d1 hreq]
      exact hlt d1 (List.mem_cons_of_mem _ hd1)

theorem pickPhysicalDeviceLoop_getLast_of_last_best (pre post : List PhysicalDevice)
    (best : PhysicalDevice) (app : HelloVkTriangleApplication)
    (C : List (Int × PhysicalDevice))
    (hC : ∀ x ∈ C, x.1 ≤ (rateDeviceSuitability app best).1)
    (hpre : ∀ d ∈ pre, (rateDeviceSuitability app d).1 ≤ (rateDeviceSuitability app best).1)
    (hpost : ∀ d ∈ post, (rateDeviceSuitability app d).1 < (rateDeviceSuitability app best).1) :
    (pickPhysicalDeviceLoop (pre ++ best :: post) app C).2.getLast? =
      some ((rateDeviceSuitability app best).1, best) := by
  induction pre generalizing app C with
  | nil =>
    show (pickPhysicalDeviceLoop (best :: post) app C).2.getLast? = _
    rw [pickPhysicalDeviceLoop]
    have hreq := rateDeviceSuitability_snd_required app best
    refine pickPhysicalDeviceLoop_getLast_of_lt post _ _ _ ?_ ?_
    · rw [multimapInsert_of_ge _ C hC]
      simp
    · intro d hd
      rw [rateDeviceSuitability_fst_congr app _ d hreq]
      exact hpost d hd
  | cons d pre ih =>
    show (pickPhysicalDeviceLoop (d :: (pre ++ best :: post)) app C).2.getLast? = _
    rw [pickPhysicalDeviceLoop]
    have hreq := rateDeviceSuitability_snd_required app d
    have hcongr : ∀ d1, (rateDeviceSuitability (rateDeviceSuitability app d).2 d1).1 =
        (rateDeviceSuitability app d1).1 :=
      fun d1 => rateDeviceSuitability_fst_congr app _ d1 hreq
    have := ih (rateDeviceSuitability app d).2
      (multimapInsert ((rateDeviceSuitability app d).1, d) C) ?_ ?_ ?_
    · rw [this, hcongr]
    · intro x hx
      rw [hcongr]
      rcases (mem_multimapInsert x _ C).mp hx with h | h
      · rw [h]; exact hpre d (List.mem_cons_self _ _)
      · exact hC x h
    · intro d1 hd1
      rw [hcongr, hcongr]
      exact hpre d1 (List.mem_cons_of_mem _ hd1)
    · intro d1 hd1
      rw [hcongr, hcongr]
      exact hpost d1 hd1

/-- C23: when the highest score of the device list is positive, pickPhysicalDevice
succeeds and selects, among the candidates with that highest score, the one that
comes last in the list: the device `best` whose score no earlier device exceeds
and every later device stays below (two or more candidates may share that
score).  Handles of enumerated devices are never VK_NULL_HANDLE. -/
theorem pickPhysicalDevice_tie_selects_last (app : HelloVkTriangleApplication)
    (pre post : List PhysicalDevice) (best : PhysicalDevice)
    (hhandle : best.handle ≠ VK_NULL_HANDLE)
    (hpos : 0 < (rateDeviceSuitability app best).1)
    (hpre : ∀ d ∈ pre, (rateDeviceSuitability app d).1 ≤ (rateDeviceSuitability app best).1)
    (hpost : ∀ d ∈ post, (rateDeviceSuitability app d).1 < (rateDeviceSuitability app best).1) :
    (pickPhysicalDevice app (pre ++ best :: post)).1 = true ∧
    (pickPhysicalDevice app (pre ++ best :: post)).2.m_physicalDevice = best.handle := by
  have hlast := pickPhysicalDeviceLoop_getLast_of_last_best pre post best app []
    (by simp) hpre hpost
  have hlen : ¬ (pre ++ best :: post).length = 0 := by simp
  have hh : ¬ best.handle = VK_NULL_HANDLE := hhandle
  unfold pickPhysicalDevice
  rw [if_neg hlen]
  simp only [hlast, gt_iff_lt, hpos, if_true, hh, if_false, and_self]

/-- Witness of C23: two discrete GPUs with the same score 4196 (handles 1 and
2) followed by an integrated GPU with score 4096; handle 2 is selected. -/
theorem pickPhysicalDevice_tie_selects_last_witness :
    (pickPhysicalDevice HelloVkTriangleApplication.create
      ([exampleDevice 1 2 4096 [⟨1, 1, 1⟩]] ++ exampleDevice 2 2 4096 [⟨1, 1, 1⟩] ::
        [exampleDevice 3 1 4096 [⟨1, 1, 1⟩]])).1 = true ∧
    (pickPhysicalDevice HelloVkTriangleApplication.create
      ([exampleDevice 1 2 4096 [⟨1, 1, 1⟩]] ++ exampleDevice 2 2 4096 [⟨1, 1, 1⟩] ::
        [exampleDevice 3 1 4096 [⟨1, 1, 1⟩]])).2.m_physicalDevice = 2 :=
  pickPhysicalDevice_tie_selects_last HelloVkTriangleApplication.create
    [exampleDevice 1 2 4096 [⟨1, 1, 1⟩]] [exampleDevice 3 1 4096 [⟨1, 1, 1⟩]]
    (exampleDevice 2 2 4096 [⟨1, 1, 1⟩]) (by decide) (by decide) (by decide) (by decide)

end GoboVkTriangle
